import Mathlib

/-!
# BQ27x00 fuel-gauge driver

A shallow embedding of `drivers/power/bq27x00_battery.c` and the properties of
its register map, value decoders, snapshot cache and property server.

Conventions of the embedding:

* a C `int` is an `Int`; every arithmetic operation of the source is followed
  by the reduction `wrap32` to the 32-bit two's-complement range;
* the transport behind `di->bus.read` is a function on an explicit bus state;
  the `World` carries that state together with a log of the transport calls
  made and counters for the events sent to the power-supply class;
* an out-parameter `val->intval` is an `Option Int`: `none` when the function
  returned without writing it;
* logging (`dev_err`, `dev_dbg`, `dev_info`) has no effect on the values and is
  left out, except the one-shot thermistor warning, which is counted;
* the mutex, `cancel_delayed_work_sync` and `schedule_delayed_work` order
  concurrent callers and are the identity on this sequential state;
* `jiffies` and `di->last_update` are `unsigned long` tick counts that wrap at
  `2^BITS_PER_LONG`; a time handed to the model is read modulo that bound.
-/

namespace Bq27x00

/-! ## C integer arithmetic -/

/-- Reduction of a mathematical integer to the 32-bit two's-complement range of a C `int`. -/
def wrap32 (x : Int) : Int := (x + 2147483648) % 4294967296 - 2147483648

/-- C `a * b` on `int`. -/
def c_mul (a b : Int) : Int := wrap32 (a * b)

/-- C `a - b` on `int`. -/
def c_sub (a b : Int) : Int := wrap32 (a - b)

/-- C unary minus on `int`. -/
def c_neg (a : Int) : Int := wrap32 (-a)

/-- C `a / b` on `int`: the quotient is truncated toward zero. -/
def c_div (a b : Int) : Int := wrap32 (Int.tdiv a b)

/-- The cast `(s16)x`: the low 16 bits of `x` read as a signed value, then widened to `int`. -/
def s16 (x : Int) : Int := (x + 32768) % 65536 - 32768

/-- The test `x & BIT(n)` of the source (non-zero iff bit `n` of the two's-complement
representation of `x` is set). -/
def c_bit (x : Int) (n : Nat) : Bool := decide ((x / 2 ^ n) % 2 = 1)

/-! ## Constants -/

/-- Modelled from the spec: errno values of the kernel headers (not under src/); `NoDevice`. -/
def ENODEV : Int := 19

/-- Modelled from the spec: errno value of the kernel headers; `TornRead` is reported as `-EIO`. -/
def EIO : Int := 5

/-- Modelled from the spec: errno value of the kernel headers; `NoData`. -/
def ENODATA : Int := 61

/-- Modelled from the spec: errno value of the kernel headers; `Unknown` property. -/
def EINVAL : Int := 22

/-- Modelled from the spec: `POWER_SUPPLY_STATUS_CHARGING` of `linux/power_supply.h`. -/
def POWER_SUPPLY_STATUS_CHARGING : Int := 1

/-- Modelled from the spec: `POWER_SUPPLY_STATUS_DISCHARGING` of `linux/power_supply.h`. -/
def POWER_SUPPLY_STATUS_DISCHARGING : Int := 2

/-- Modelled from the spec: `POWER_SUPPLY_STATUS_NOT_CHARGING` of `linux/power_supply.h`. -/
def POWER_SUPPLY_STATUS_NOT_CHARGING : Int := 3

/-- Modelled from the spec: `POWER_SUPPLY_STATUS_FULL` of `linux/power_supply.h`. -/
def POWER_SUPPLY_STATUS_FULL : Int := 4

/-- Modelled from the spec: `POWER_SUPPLY_TECHNOLOGY_LION` of `linux/power_supply.h`. -/
def POWER_SUPPLY_TECHNOLOGY_LION : Int := 2

def G3_FW_VERSION : Int := 0x0324

def L1_FW_VERSION : Int := 0x0600

def INVALID_REG_ADDR : Nat := 0xFF

/-- Bit number of `BQ27000_FLAG_CHGS = BIT(7)`. -/
def BQ27000_FLAG_CHGS : Nat := 7

/-- Bit number of `BQ27000_FLAG_FC = BIT(5)`. -/
def BQ27000_FLAG_FC : Nat := 5

/-- Bit number of `BQ27500_FLAG_DSC = BIT(0)`. -/
def BQ27500_FLAG_DSC : Nat := 0

/-- Bit number of `BQ27500_FLAG_FC = BIT(9)`. -/
def BQ27500_FLAG_FC : Nat := 9

/-- Resistor sense. -/
def BQ27000_RS : Int := 20

/-! ## Register map -/

inductive bq27x00_reg_index where
  | BQ27x00_REG_TEMP
  | BQ27x00_REG_INT_TEMP
  | BQ27x00_REG_VOLT
  | BQ27x00_REG_AI
  | BQ27x00_REG_FLAGS
  | BQ27x00_REG_TTE
  | BQ27x00_REG_TTF
  | BQ27x00_REG_TTES
  | BQ27x00_REG_TTECP
  | BQ27x00_REG_NAC
  | BQ27x00_REG_LMD
  | BQ27x00_REG_CYCT
  | BQ27x00_REG_AE
  | BQ27000_REG_RSOC
  | BQ27000_REG_ILMD
  | BQ27500_REG_SOC
  | BQ27500_REG_DCAP
  | BQ27500_REG_CTRL
  deriving DecidableEq, Repr

open bq27x00_reg_index

/-- The integer value of each enumerator of `enum bq27x00_reg_index`. -/
def bq27x00_reg_index.toNat : bq27x00_reg_index → Nat
  | BQ27x00_REG_TEMP => 0
  | BQ27x00_REG_INT_TEMP => 1
  | BQ27x00_REG_VOLT => 2
  | BQ27x00_REG_AI => 3
  | BQ27x00_REG_FLAGS => 4
  | BQ27x00_REG_TTE => 5
  | BQ27x00_REG_TTF => 6
  | BQ27x00_REG_TTES => 7
  | BQ27x00_REG_TTECP => 8
  | BQ27x00_REG_NAC => 9
  | BQ27x00_REG_LMD => 10
  | BQ27x00_REG_CYCT => 11
  | BQ27x00_REG_AE => 12
  | BQ27000_REG_RSOC => 13
  | BQ27000_REG_ILMD => 14
  | BQ27500_REG_SOC => 15
  | BQ27500_REG_DCAP => 16
  | BQ27500_REG_CTRL => 17

/-- TI G3 Firmware (v3.24). -/
def bq27x00_fw_g3_regs : List Nat :=
  [0x06, 0x36, 0x08, 0x14, 0x0A, 0x16, 0x18, 0x1c, 0x26, 0x0C, 0x12, 0x2A, 0x22, 0x0B, 0x76,
   0x2C, 0x3C, 0x00]

/-- TI L1 firmware (v6.00); the registers missing in this firmware are marked 0xFF. -/
def bq27x00_fw_l1_regs : List Nat :=
  [0x06, 0x28, 0x08, 0x14, 0x0A, 0x16, 0xFF, 0x1A, 0xFF, 0x0C, 0xFF, 0x1E, 0xFF, 0xFF, 0xFF,
   0x20, 0x2E, 0x00]

/-! ## Device state -/

inductive bq27x00_chip where
  | BQ27000
  | BQ27500
  deriving DecidableEq, Repr

open bq27x00_chip

structure bq27x00_reg_cache where
  temperature : Int
  internal_temp : Int
  time_to_empty : Int
  time_to_empty_avg : Int
  time_to_full : Int
  charge_full : Int
  cycle_count : Int
  capacity : Int
  flags : Int
  current_now : Int

/-- The initialiser `struct bq27x00_reg_cache cache = {0, }`. -/
def bq27x00_reg_cache.zero : bq27x00_reg_cache :=
  ⟨0, 0, 0, 0, 0, 0, 0, 0, 0, 0⟩

/-- The part of `struct bq27x00_device_info` the driver logic reads and writes.
`regs` is `none` for a NULL `di->regs`, and `translate_temp` is `none` for a NULL hook. -/
structure bq27x00_device_info where
  chip : bq27x00_chip
  cache : bq27x00_reg_cache
  charge_design_full : Int
  fake_battery : Int
  translate_temp : Option (Int → Int)
  last_update : Nat
  regs : Option (List Nat)
  fw_ver : Int
  df_ver : Int

/-- The state outside `di`: the transport behind `di->bus`, and what the driver has done to
its surroundings so far. -/
structure World (σ : Type) where
  /-- state of the bus / chip behind the transport -/
  bus : σ
  /-- the transport reads issued so far, oldest first: (register address, single) -/
  reads : List (Nat × Bool)
  /-- number of `power_supply_changed` calls -/
  changed : Nat
  /-- number of runs of `bq27x00_update` -/
  updates : Nat
  /-- the function-local `static int once` of `bq27x00_battery_temperature` -/
  once : Bool
  /-- number of thermistor warnings printed -/
  warnings : Nat

/-- What the driver is given by its surroundings. -/
structure Env (σ : Type) where
  /-- `di->bus.read(di, reg, single)` -/
  read : σ → Nat → Bool → Int × σ
  /-- the answer of `power_supply_am_i_supplied(&di->bat)` -/
  am_i_supplied : Bool
  /-- ticks per second -/
  HZ : Nat
  /-- the return value of `power_supply_register` -/
  register_ret : Int
  /-- the width in bits of `unsigned long`, the type of `jiffies` and `di->last_update` -/
  BITS_PER_LONG : Nat

/-- Modelled from the spec: `time_is_before_jiffies(a)` of `linux/jiffies.h` (not under src/),
"the property server checks now − last_update; if greater than 5 seconds", on the tick
counter of the kernel, an `unsigned long` that wraps: `a` and `jiffies` are taken modulo
`2^bits`, and `a` lies before `jiffies` when the difference `a - jiffies`, computed modulo
`2^bits` and read as a signed `long`, is negative. -/
def time_is_before_jiffies (bits a jiffies : Nat) : Bool :=
  decide (2 ^ (bits - 1) ≤ (a % 2 ^ bits + 2 ^ bits - jiffies % 2 ^ bits) % 2 ^ bits)

/-- The ticks gone by from the counter value `last` to the counter value `now`, on a counter
that wraps at `2^bits`. -/
def jiffies_elapsed (bits last now : Nat) : Nat :=
  (now % 2 ^ bits + 2 ^ bits - last % 2 ^ bits) % 2 ^ bits

/-! ## Common code for BQ27x00 devices -/

variable {σ : Type}

/-- Lines 211-223. Reports 0 for invalid/missing registers. Both register tables have an entry
for every index, so the default of `getD` is never used with them. -/
def bq27x00_read (env : Env σ) (di : bq27x00_device_info) (w : World σ)
    (reg_index : bq27x00_reg_index) (single : Bool) : Int × World σ :=
  match di.regs with
  | none => (0, w)
  | some regs =>
    if regs.getD reg_index.toNat 0 = INVALID_REG_ADDR then (0, w)
    else
      let r := env.read w.bus (regs.getD reg_index.toNat 0) single
      (r.1, { w with bus := r.2, reads := w.reads ++ [(regs.getD reg_index.toNat 0, single)] })

/-- Lines 238-251. Return the battery Relative State-of-Charge, or < 0 if something fails. -/
def bq27x00_battery_read_rsoc (env : Env σ) (di : bq27x00_device_info) (w : World σ) :
    Int × World σ :=
  if di.chip = BQ27500 then bq27x00_read env di w BQ27500_REG_SOC false
  else bq27x00_read env di w BQ27000_REG_RSOC true

/-- Lines 257-273. Return a battery charge value in µAh, or < 0 if something fails. -/
def bq27x00_battery_read_charge (env : Env σ) (di : bq27x00_device_info) (w : World σ)
    (reg : bq27x00_reg_index) : Int × World σ :=
  let r := bq27x00_read env di w reg false
  if r.1 < 0 then (r.1, r.2)
  else if di.chip = BQ27500 then (c_mul r.1 1000, r.2)
  else (c_div (c_mul r.1 3570) BQ27000_RS, r.2)

/-- Lines 279-282. -/
def bq27x00_battery_read_nac (env : Env σ) (di : bq27x00_device_info) (w : World σ) :
    Int × World σ :=
  bq27x00_battery_read_charge env di w BQ27x00_REG_NAC

/-- Lines 288-291. -/
def bq27x00_battery_read_lmd (env : Env σ) (di : bq27x00_device_info) (w : World σ) :
    Int × World σ :=
  bq27x00_battery_read_charge env di w BQ27x00_REG_LMD

/-- Lines 297-317. Return the battery Initial last measured discharge in µAh. -/
def bq27x00_battery_read_ilmd (env : Env σ) (di : bq27x00_device_info) (w : World σ) :
    Int × World σ :=
  let r := if di.chip = BQ27500 then bq27x00_read env di w BQ27500_REG_DCAP false
           else bq27x00_read env di w BQ27000_REG_ILMD true
  if r.1 < 0 then (r.1, r.2)
  else if di.chip = BQ27500 then (c_mul r.1 1000, r.2)
  else (c_div (c_mul (c_mul r.1 256) 3570) BQ27000_RS, r.2)

/-- Lines 323-332. Return the battery Cycle count total. -/
def bq27x00_battery_read_cyct (env : Env σ) (di : bq27x00_device_info) (w : World σ) :
    Int × World σ :=
  bq27x00_read env di w BQ27x00_REG_CYCT false

/-- Lines 338-352. Read a time register. -/
def bq27x00_battery_read_time (env : Env σ) (di : bq27x00_device_info) (w : World σ)
    (reg : bq27x00_reg_index) : Int × World σ :=
  let r := bq27x00_read env di w reg false
  if r.1 < 0 then (r.1, r.2)
  else if r.1 = 65535 then (-ENODATA, r.2)
  else (c_mul r.1 60, r.2)

/-- The bytes `memcmp(&di->cache, &cache, sizeof(cache) - sizeof(int))` compares: every field
of the snapshot except the last one, `current_now` (ten `int` fields, no padding). -/
def bq27x00_reg_cache.compared (c : bq27x00_reg_cache) : List Int :=
  [c.temperature, c.internal_temp, c.time_to_empty, c.time_to_empty_avg, c.time_to_full,
   c.charge_full, c.cycle_count, c.capacity, c.flags]

/-- Lines 356-376, the first half of `bq27x00_update`: the local snapshot `cache` filled from
the chip, and `di` after the one-time read of the design capacity. -/
def bq27x00_update_snapshot (env : Env σ) (di : bq27x00_device_info) (w : World σ) :
    bq27x00_reg_cache × bq27x00_device_info × World σ :=
  let cache := bq27x00_reg_cache.zero
  let is_bq27500 := decide (di.chip = BQ27500)
  let r0 := bq27x00_read env di w BQ27x00_REG_FLAGS is_bq27500
  let cache := { cache with flags := r0.1 }
  if cache.flags ≥ 0 then
    let r1 := bq27x00_battery_read_rsoc env di r0.2
    let cache := { cache with capacity := r1.1 }
    let r2 := bq27x00_read env di r1.2 BQ27x00_REG_TEMP false
    let cache := { cache with temperature := r2.1 }
    let r3 := bq27x00_read env di r2.2 BQ27x00_REG_INT_TEMP false
    let cache := { cache with internal_temp := r3.1 }
    let r4 := bq27x00_battery_read_time env di r3.2 BQ27x00_REG_TTE
    let cache := { cache with time_to_empty := r4.1 }
    let r5 := bq27x00_battery_read_time env di r4.2 BQ27x00_REG_TTES
    let cache := { cache with time_to_empty_avg := r5.1 }
    let r6 := bq27x00_battery_read_time env di r5.2 BQ27x00_REG_TTF
    let cache := { cache with time_to_full := r6.1 }
    let r7 := bq27x00_battery_read_lmd env di r6.2
    let cache := { cache with charge_full := r7.1 }
    let r8 := bq27x00_battery_read_cyct env di r7.2
    let cache := { cache with cycle_count := r8.1 }
    let r9 := if !is_bq27500 then bq27x00_read env di r8.2 BQ27x00_REG_AI false
              else (cache.current_now, r8.2)
    let cache := { cache with current_now := r9.1 }
    /- We only have to read charge design full once -/
    if di.charge_design_full ≤ 0 then
      let r10 := bq27x00_battery_read_ilmd env di r9.2
      (cache, { di with charge_design_full := r10.1 }, r10.2)
    else (cache, di, r9.2)
  else (cache, di, r0.2)

/-- Lines 354-386. `now` is the value of `jiffies` read at the end of the refresh. -/
def bq27x00_update (env : Env σ) (now : Nat) (di : bq27x00_device_info) (w : World σ) :
    bq27x00_device_info × World σ :=
  let s := bq27x00_update_snapshot env di w
  let cache := s.1
  let di1 := s.2.1
  let w1 := s.2.2
  /- Ignore current_now which is a snapshot of the current battery state -/
  let r : bq27x00_device_info × World σ :=
    if di1.cache.compared ≠ cache.compared then
      ({ di1 with cache := cache }, { w1 with changed := w1.changed + 1 })
    else (di1, w1)
  ({ r.1 with last_update := now }, { r.2 with updates := r.2.updates + 1 })

/-- Lines 388-400. The re-arming of the delayed work is a matter of the scheduler and leaves
the device state alone. -/
def bq27x00_battery_poll (env : Env σ) (now : Nat) (di : bq27x00_device_info) (w : World σ) :
    bq27x00_device_info × World σ :=
  bq27x00_update env now di w

/-- What a property getter hands back: its return code, the value stored through
`val->intval` (`none` when nothing was stored), and the state it leaves. -/
structure PropResult (σ : Type) where
  ret : Int
  val : Option Int
  di : bq27x00_device_info
  w : World σ

/-- The raw-to-tenths-of-a-degree conversion that `bq27x00_battery_temperature` applies to
`cache.temperature` (lines 415-418) and again to `cache.internal_temp` (lines 437-440). -/
def bq27x00_temp_decode (chip : bq27x00_chip) (raw : Int) : Int :=
  if chip = BQ27500 then c_sub raw 2731
  else c_div (c_sub (c_mul raw 5) 5463) 2

/-- Lines 415-422 of `bq27x00_battery_temperature`: the thermistor reading decoded from
`cache.temperature`, after the board has translated it if a hook is installed. -/
def bq27x00_thermistor_temperature (di : bq27x00_device_info) : Int :=
  let temperature := bq27x00_temp_decode di.chip di.cache.temperature
  /- let the board translate the thermistor reading if necessary -/
  match di.translate_temp with
  | some f => f temperature
  | none => temperature

/-- Lines 407-455. Return the battery temperature in tenths of degree Celsius. -/
def bq27x00_battery_temperature (di : bq27x00_device_info) (w : World σ) : PropResult σ :=
  if di.cache.temperature < 0 then ⟨di.cache.temperature, none, di, w⟩
  else
    let temperature := bq27x00_thermistor_temperature di
    if temperature < -350 then
      let w1 := if !w.once then { w with once := true, warnings := w.warnings + 1 } else w
      let temperature := bq27x00_temp_decode di.chip di.cache.internal_temp
      let temperature := c_sub temperature 200
      ⟨0, some temperature, { di with fake_battery := 1 }, w1⟩
    else
      /- if we ever get a valid reading we must not have a fake battery -/
      ⟨0, some temperature, { di with fake_battery := 0 }, w⟩

/-- Lines 462-490. Return the battery average current in µA. The early return on a negative
reading is compiled out (`#if 0`). -/
def bq27x00_battery_current (env : Env σ) (di : bq27x00_device_info) (w : World σ) :
    PropResult σ :=
  let c := if di.chip = BQ27500 then bq27x00_read env di w BQ27x00_REG_AI false
           else (di.cache.current_now, w)
  if di.chip = BQ27500 then
    /- bq27500 returns signed value -/
    ⟨0, some (c_mul (s16 c.1) 1000), di, c.2⟩
  else
    let curr := if c_bit di.cache.flags BQ27000_FLAG_CHGS then c_neg c.1 else c.1
    ⟨0, some (c_div (c_mul curr 3570) BQ27000_RS), di, c.2⟩

/-- Lines 492-518. -/
def bq27x00_battery_status (env : Env σ) (di : bq27x00_device_info) (w : World σ) :
    PropResult σ :=
  let status :=
    if di.chip = BQ27500 then
      if c_bit di.cache.flags BQ27500_FLAG_FC then POWER_SUPPLY_STATUS_FULL
      else if c_bit di.cache.flags BQ27500_FLAG_DSC then POWER_SUPPLY_STATUS_DISCHARGING
      else POWER_SUPPLY_STATUS_CHARGING
    else
      if c_bit di.cache.flags BQ27000_FLAG_FC then POWER_SUPPLY_STATUS_FULL
      else if c_bit di.cache.flags BQ27000_FLAG_CHGS then POWER_SUPPLY_STATUS_CHARGING
      else if env.am_i_supplied then POWER_SUPPLY_STATUS_NOT_CHARGING
      else POWER_SUPPLY_STATUS_DISCHARGING
  ⟨0, some status, di, w⟩

/-- Lines 524-536. Return the battery Voltage. -/
def bq27x00_battery_voltage (env : Env σ) (di : bq27x00_device_info) (w : World σ) :
    PropResult σ :=
  let r := bq27x00_read env di w BQ27x00_REG_VOLT false
  if r.1 < 0 then ⟨r.1, none, di, r.2⟩
  else ⟨0, some (c_mul r.1 1000), di, r.2⟩

/-- Lines 542-561. Return the battery Available energy in µWh. -/
def bq27x00_battery_energy (env : Env σ) (di : bq27x00_device_info) (w : World σ) :
    PropResult σ :=
  let r := bq27x00_read env di w BQ27x00_REG_AE false
  if r.1 < 0 then ⟨r.1, none, di, r.2⟩
  else if di.chip = BQ27500 then ⟨0, some (c_mul r.1 1000), di, r.2⟩
  else ⟨0, some (c_div (c_mul r.1 29200) BQ27000_RS), di, r.2⟩

/-- Lines 564-573. -/
def bq27x00_simple_value (value : Int) (di : bq27x00_device_info) (w : World σ) :
    PropResult σ :=
  if value < 0 then ⟨value, none, di, w⟩
  else ⟨0, some value, di, w⟩

/-- The properties of `bq27x00_battery_props`; `POWER_SUPPLY_PROP_OTHER` stands for every
other enumerator of `enum power_supply_property`, which the `switch` sends to `default`. -/
inductive power_supply_property where
  | POWER_SUPPLY_PROP_STATUS
  | POWER_SUPPLY_PROP_PRESENT
  | POWER_SUPPLY_PROP_VOLTAGE_NOW
  | POWER_SUPPLY_PROP_CURRENT_NOW
  | POWER_SUPPLY_PROP_CAPACITY
  | POWER_SUPPLY_PROP_TEMP
  | POWER_SUPPLY_PROP_TIME_TO_EMPTY_NOW
  | POWER_SUPPLY_PROP_TIME_TO_EMPTY_AVG
  | POWER_SUPPLY_PROP_TIME_TO_FULL_NOW
  | POWER_SUPPLY_PROP_TECHNOLOGY
  | POWER_SUPPLY_PROP_CHARGE_FULL
  | POWER_SUPPLY_PROP_CHARGE_NOW
  | POWER_SUPPLY_PROP_CHARGE_FULL_DESIGN
  | POWER_SUPPLY_PROP_CYCLE_COUNT
  | POWER_SUPPLY_PROP_ENERGY_NOW
  | POWER_SUPPLY_PROP_OTHER
  deriving DecidableEq, Repr

open power_supply_property

/-- Lines 585-590 of `bq27x00_battery_get_property`: the freshness check, which runs a
synchronous refresh when the snapshot is older than five seconds. -/
def bq27x00_refresh_if_stale (env : Env σ) (now : Nat) (di : bq27x00_device_info)
    (w : World σ) : bq27x00_device_info × World σ :=
  if time_is_before_jiffies env.BITS_PER_LONG (di.last_update + 5 * env.HZ) now then
    bq27x00_battery_poll env now di w
  else (di, w)

/-- Lines 592-650 of `bq27x00_battery_get_property`: the presence guard and the `switch`,
on the state the freshness check leaves. -/
def bq27x00_property_switch (env : Env σ) (psp : power_supply_property)
    (di : bq27x00_device_info) (w : World σ) : PropResult σ :=
  if psp ≠ POWER_SUPPLY_PROP_PRESENT ∧ di.cache.flags < 0 then ⟨-ENODEV, none, di, w⟩
  else
    match psp with
    | POWER_SUPPLY_PROP_STATUS => bq27x00_battery_status env di w
    | POWER_SUPPLY_PROP_VOLTAGE_NOW => bq27x00_battery_voltage env di w
    | POWER_SUPPLY_PROP_PRESENT => ⟨0, some (if di.cache.flags < 0 then 0 else 1), di, w⟩
    | POWER_SUPPLY_PROP_CURRENT_NOW => bq27x00_battery_current env di w
    | POWER_SUPPLY_PROP_CAPACITY =>
      if di.fake_battery ≠ 0 then ⟨0, some 96, di, w⟩
      else bq27x00_simple_value di.cache.capacity di w
    | POWER_SUPPLY_PROP_TEMP => bq27x00_battery_temperature di w
    | POWER_SUPPLY_PROP_TIME_TO_EMPTY_NOW => bq27x00_simple_value di.cache.time_to_empty di w
    | POWER_SUPPLY_PROP_TIME_TO_EMPTY_AVG =>
      bq27x00_simple_value di.cache.time_to_empty_avg di w
    | POWER_SUPPLY_PROP_TIME_TO_FULL_NOW => bq27x00_simple_value di.cache.time_to_full di w
    | POWER_SUPPLY_PROP_TECHNOLOGY => ⟨0, some POWER_SUPPLY_TECHNOLOGY_LION, di, w⟩
    | POWER_SUPPLY_PROP_CHARGE_NOW =>
      let r := bq27x00_battery_read_nac env di w
      bq27x00_simple_value r.1 di r.2
    | POWER_SUPPLY_PROP_CHARGE_FULL => bq27x00_simple_value di.cache.charge_full di w
    | POWER_SUPPLY_PROP_CHARGE_FULL_DESIGN => bq27x00_simple_value di.charge_design_full di w
    | POWER_SUPPLY_PROP_CYCLE_COUNT => bq27x00_simple_value di.cache.cycle_count di w
    | POWER_SUPPLY_PROP_ENERGY_NOW => bq27x00_battery_energy env di w
    | POWER_SUPPLY_PROP_OTHER => ⟨-EINVAL, none, di, w⟩

/-- Lines 578-651. `now` is the value of `jiffies` during the call. -/
def bq27x00_battery_get_property (env : Env σ) (now : Nat) (psp : power_supply_property)
    (di : bq27x00_device_info) (w : World σ) : PropResult σ :=
  let s := bq27x00_refresh_if_stale env now di w
  bq27x00_property_switch env psp s.1 s.2

/-- Lines 661-695. The snapshot is primed with TEMP and INT_TEMP, the battery is registered,
and the first refresh runs. -/
def bq27x00_powersupply_init (env : Env σ) (now : Nat) (di : bq27x00_device_info)
    (w : World σ) : Int × bq27x00_device_info × World σ :=
  let t := bq27x00_read env di w BQ27x00_REG_TEMP false
  let di := { di with cache := { di.cache with temperature := t.1 } }
  let it := bq27x00_read env di t.2 BQ27x00_REG_INT_TEMP false
  let di := { di with cache := { di.cache with internal_temp := it.1 } }
  if env.register_ret ≠ 0 then (env.register_ret, di, it.2)
  else
    let u := bq27x00_update env now di it.2
    (0, u.1, u.2)

/-! ## I2C transport -/

/-- Modelled from the spec: `i2c_transfer` and the chip behind it (kernel I2C core, not under
src/): "either a raw byte or a 16-bit little-endian word from consecutive addresses reg,
reg+1"; the transfer "returns a negative count" on a bus error. -/
structure i2c_client where
  /-- whether `client->adapter` is non-NULL -/
  adapter : Bool
  /-- what `i2c_transfer` returns: a negative code, or the number of messages moved -/
  transfer_ret : Int
  /-- the byte the chip holds at each register address -/
  regfile : Nat → Nat

/-- Lines 716-748. -/
def bq27x00_read_i2c (client : i2c_client) (reg : Nat) (single : Bool) : Int × i2c_client :=
  if !client.adapter then (-ENODEV, client)
  else
    /- msg[1].len is 1 if single, else 2: the chip fills data[0] (and data[1]) from reg on -/
    let data0 : Nat := client.regfile reg % 256
    let data1 : Nat := client.regfile (reg + 1) % 256
    let ret := client.transfer_ret
    if ret < 0 then (ret, client)
    else if !single then (((data0 ||| (data1 <<< 8) : Nat) : Int), client)
    else ((data0 : Int), client)

/-- The surroundings of a device probed by `bq27x00_battery_probe` (line 1163:
`di->bus.read = &bq27x00_read_i2c`), on a kernel whose `unsigned long` has 32 bits. -/
def i2c_env (am_i_supplied : Bool) (HZ : Nat) (register_ret : Int) : Env i2c_client :=
  ⟨bq27x00_read_i2c, am_i_supplied, HZ, register_ret, 32⟩

/-! ## Platform (HDQ) transport -/

/-- The `do ... while (temp != upper && --timeout)` loop of `bq27000_read_platform`, lines
1282-1297, with the two statements after it; `read` is `pdata->read(dev, reg)` on the state
`s` of the single-wire bus. The loop is entered with `timeout = 3` and left when `timeout`
reaches 0, so the first equation is never used. -/
def bq27000_read_platform_loop (read : σ → Nat → Int × σ) (reg : Nat) :
    Nat → Int → σ → Int × σ
  | 0, upper, s => (upper, s)
  | timeout + 1, upper, s =>
    let temp := upper
    if upper < 0 then (upper, s)
    else
      let l := read s reg
      let lower := l.1
      if lower < 0 then (lower, l.2)
      else
        let u := read l.2 (reg + 1)
        let upper := u.1
        if temp ≠ upper then
          /- `--timeout` -/
          if timeout ≠ 0 then bq27000_read_platform_loop read reg timeout upper u.2
          else (- EIO, u.2)
        else (Int.lor (wrap32 (upper * 256)) lower, u.2)

/-- Lines 1269-1301. -/
def bq27000_read_platform (read : σ → Nat → Int × σ) (s : σ) (reg : Nat) (single : Bool) :
    Int × σ :=
  if !single then
    /- Make sure the value has not changed in between reading the lower and the upper part -/
    let u := read s (reg + 1)
    bq27000_read_platform_loop read reg 3 u.1 u.2
  else read s reg

/-- A single-wire bus that answers from a script: `hi n` is what the n-th read of the high
byte (`reg + 1`) returns and `lo n` what the n-th read of any other register returns. -/
structure hdq_script where
  hi : Nat → Int
  lo : Nat → Int

/-- How many high-byte and how many other reads a scripted bus has served. -/
structure hdq_count where
  nhi : Nat
  nlo : Nat
  deriving DecidableEq, Repr

/-- The byte-read callback `pdata->read(dev, a)` of a scripted bus for the 16-bit register
`reg`. -/
def hdq_read (sc : hdq_script) (reg : Nat) (c : hdq_count) (a : Nat) : Int × hdq_count :=
  if a = reg + 1 then (sc.hi c.nhi, ⟨c.nhi + 1, c.nlo⟩)
  else (sc.lo c.nlo, ⟨c.nhi, c.nlo + 1⟩)

/-- Builds a chip register file from 16-bit little-endian words given as (address, value). -/
def regfile_of (words : List (Nat × Nat)) (a : Nat) : Nat :=
  match words with
  | [] => 0
  | (base, v) :: rest =>
    if a = base then v % 256
    else if a = base + 1 then v / 256 % 256
    else regfile_of rest a

/-- One thing that happens to a registered battery: the poller (or anyone else) runs a
refresh at time `now`, or a client reads a property at time `now`. -/
inductive driver_op where
  | refresh (now : Nat)
  | read (psp : power_supply_property) (now : Nat)

/-- Whether the operation is a read of the Temp property. -/
def driver_op.isTempRead : driver_op → Bool
  | .read POWER_SUPPLY_PROP_TEMP _ => true
  | _ => false

/-- The state after one operation. -/
def driver_step (env : Env σ) (s : bq27x00_device_info × World σ) :
    driver_op → bq27x00_device_info × World σ
  | .refresh now => bq27x00_battery_poll env now s.1 s.2
  | .read psp now =>
    ((bq27x00_battery_get_property env now psp s.1 s.2).di,
     (bq27x00_battery_get_property env now psp s.1 s.2).w)

/-- The state after a sequence of operations, carried out from left to right. -/
def driver_run (env : Env σ) (s : bq27x00_device_info × World σ) (ops : List driver_op) :
    bq27x00_device_info × World σ :=
  ops.foldl (driver_step env) s

/-- The state a read of the Temp property leaves, taken on the state `(di, w)` that the
freshness check of that read has left. -/
def after_temp_read (env : Env σ) (di : bq27x00_device_info) (w : World σ) :
    bq27x00_device_info × World σ :=
  ((bq27x00_property_switch env POWER_SUPPLY_PROP_TEMP di w).di,
   (bq27x00_property_switch env POWER_SUPPLY_PROP_TEMP di w).w)

/-- A read of the Capacity property at time `now`, made after a Temp read on `(di, w)` and
then the operations `ops`. -/
def capacity_read_after (env : Env σ) (di : bq27x00_device_info) (w : World σ)
    (ops : List driver_op) (now : Nat) : PropResult σ :=
  bq27x00_battery_get_property env now POWER_SUPPLY_PROP_CAPACITY
    (driver_run env (after_temp_read env di w) ops).1
    (driver_run env (after_temp_read env di w) ops).2

/-- The chip of scenario S1: FLAGS = 0x0200, TEMP = 3001, VOLT = 3800, SOC = 0x004B and
CURRENT = 0xFFEC at their L1 addresses, on a working bus. -/
def s1_client : i2c_client :=
  ⟨true, 2, regfile_of [(0x0A, 0x0200), (0x06, 3001), (0x08, 3800), (0x20, 0x004B),
    (0x14, 0xFFEC)]⟩

/-- The device of scenario S1 as `bq27x00_battery_probe` leaves it before the first refresh:
zero-filled by `kzalloc`, Gen2, L1 register map. -/
def s1_di : bq27x00_device_info :=
  ⟨BQ27500, bq27x00_reg_cache.zero, 0, 0, none, 0, some bq27x00_fw_l1_regs, L1_FW_VERSION, 0⟩

/-- The device and world of scenario S1 after one refresh at tick 0. -/
def s1_refreshed : bq27x00_device_info × World i2c_client :=
  bq27x00_update (i2c_env false 100 0) 0 s1_di ⟨s1_client, [], 0, 0, false, 0⟩

/-- What one transport read of register address `addr` does to the world. -/
def World.afterRead (env : Env σ) (w : World σ) (addr : Nat) (single : Bool) : World σ :=
  { w with bus := (env.read w.bus addr single).2, reads := w.reads ++ [(addr, single)] }

/-- The counters of the world that no transport read touches. -/
def World.ghost (w : World σ) : Nat × Nat × Bool × Nat :=
  (w.changed, w.updates, w.once, w.warnings)

/-- The world in which a refresh that found FLAGS non-negative issues its read of TTE: the
one left by the reads of FLAGS, the state of charge, TEMP and INT_TEMP (lines 359-363). -/
def bq27x00_update_world_tte (env : Env σ) (di : bq27x00_device_info) (w : World σ) :
    World σ :=
  let r0 := bq27x00_read env di w BQ27x00_REG_FLAGS (decide (di.chip = BQ27500))
  let r1 := bq27x00_battery_read_rsoc env di r0.2
  let r2 := bq27x00_read env di r1.2 BQ27x00_REG_TEMP false
  let r3 := bq27x00_read env di r2.2 BQ27x00_REG_INT_TEMP false
  r3.2

/-- The world in which that refresh issues its read of TTES: after the read of TTE. -/
def bq27x00_update_world_ttes (env : Env σ) (di : bq27x00_device_info) (w : World σ) :
    World σ :=
  (bq27x00_battery_read_time env di (bq27x00_update_world_tte env di w) BQ27x00_REG_TTE).2

/-- The world in which that refresh issues its read of TTF: after the read of TTES. -/
def bq27x00_update_world_ttf (env : Env σ) (di : bq27x00_device_info) (w : World σ) :
    World σ :=
  (bq27x00_battery_read_time env di (bq27x00_update_world_ttes env di w) BQ27x00_REG_TTES).2

/-- What a time property must answer when the refresh read the raw value `v` from its
register: no-data for 65535, `v*60` seconds for any other `v` from 0 on, and the transport's
code for a negative `v`. -/
def time_answer (v : Int) (r : PropResult σ) : Prop :=
  (v = 65535 → r.ret = - ENODATA ∧ r.val = none) ∧
  (0 ≤ v → v < 65535 → r.ret = 0 ∧ r.val = some (v * 60)) ∧
  (v < 0 → r.ret = v ∧ r.val = none)

/-- The device state `bq27x00_battery_probe` hands to `bq27x00_powersupply_init`: zero-filled
by `kzalloc` (line 1152), then given its chip, board hook, firmware versions and register
map (lines 1161-1186). -/
def bq27x00_probe_di (chip : bq27x00_chip) (regs : List Nat) (translate_temp : Option (Int → Int))
    (fw_ver df_ver : Int) : bq27x00_device_info :=
  ⟨chip, bq27x00_reg_cache.zero, 0, 0, translate_temp, 0, some regs, fw_ver, df_ver⟩

/-- The snapshot a refresh reads when its FLAGS read returns -5: zero but for FLAGS. -/
def dead_cache : bq27x00_reg_cache :=
  ⟨0, 0, 0, 0, 0, 0, 0, 0, -5, 0⟩

/-- A transport on which every read returns -5. -/
def dead_env : Env Unit :=
  ⟨fun s _ _ => (-5, s), false, 100, 0, 32⟩

/-- The device and world `bq27x00_powersupply_init` leaves when called at time `now` on the
freshly probed device. -/
def bq27x00_probed (env : Env σ) (now : Nat) (chip : bq27x00_chip) (regs : List Nat)
    (translate_temp : Option (Int → Int)) (fw_ver df_ver : Int) (w : World σ) :
    bq27x00_device_info × World σ :=
  ((bq27x00_powersupply_init env now
      (bq27x00_probe_di chip regs translate_temp fw_ver df_ver) w).2.1,
   (bq27x00_powersupply_init env now
      (bq27x00_probe_di chip regs translate_temp fw_ver df_ver) w).2.2)

/-- What `bq27x00_read` of register `i` appends to the log of transport reads: nothing for a
NULL map or a sentinel entry, else the one read at the table's address. -/
def bq27x00_read_trace (di : bq27x00_device_info) (i : bq27x00_reg_index) (single : Bool) :
    List (Nat × Bool) :=
  match di.regs with
  | none => []
  | some regs =>
    if regs.getD i.toNat 0 = INVALID_REG_ADDR then []
    else [(regs.getD i.toNat 0, single)]

/-- The design-capacity register `bq27x00_battery_read_ilmd` reads on this chip, lines 301-304:
DCAP (16 bits) on Gen2, ILMD (one byte) on Gen1. -/
def bq27x00_design_reg (di : bq27x00_device_info) : bq27x00_reg_index × Bool :=
  if di.chip = BQ27500 then (BQ27500_REG_DCAP, false) else (BQ27000_REG_ILMD, true)

/-- Whether the installed register map has the design-capacity register of this chip: not
when `di->regs` is NULL, and not when the entry is the sentinel (ILMD in the L1 map). -/
def bq27x00_has_design_reg (di : bq27x00_device_info) : Bool :=
  match di.regs with
  | none => false
  | some regs => decide (regs.getD (bq27x00_design_reg di).1.toNat 0 ≠ INVALID_REG_ADDR)

/-- How many transport reads of the design-capacity register the log holds. -/
def design_reads (di : bq27x00_device_info) (w : World σ) : Nat :=
  (w.reads.filter
    (fun e => decide (e ∈ bq27x00_read_trace di (bq27x00_design_reg di).1
      (bq27x00_design_reg di).2))).length

/-- The state after refreshes at the given times, one after the other. -/
def bq27x00_refreshes (env : Env σ) (s : bq27x00_device_info × World σ) (times : List Nat) :
    bq27x00_device_info × World σ :=
  times.foldl (fun s now => bq27x00_update env now s.1 s.2) s

/-- A transport whose state counts the reads of address 0x2E (DCAP in the L1 map): the first
of them fails with -5, the later ones return 1000, and every other register reads 0. -/
def flaky_dcap_env : Env Nat :=
  ⟨fun s reg _ => if reg = 0x2E then (if s = 0 then -5 else 1000, s + 1) else (0, s),
    false, 100, 0, 32⟩

/-! ## Helper lemmas -/

theorem wrap32_of_range (x : Int) (h1 : -2147483648 ≤ x) (h2 : x < 2147483648) :
    wrap32 x = x := by
  unfold wrap32
  omega

theorem tdiv20_of_nonneg (a : Int) (h : 0 ≤ a) : Int.tdiv a 20 = a / 20 := by
  exact Int.tdiv_eq_ediv h (by decide)

theorem tdiv20_neg (a : Int) (h : 0 ≤ a) : Int.tdiv (-a) 20 = -(a / 20) := by
  rw [Int.neg_tdiv, tdiv20_of_nonneg a h]

/-! ## Frame lemmas: what the readers leave alone -/

@[simp] theorem read_ghost (env : Env σ) (di : bq27x00_device_info) (w : World σ)
    (i : bq27x00_reg_index) (single : Bool) :
    (bq27x00_read env di w i single).2.ghost = w.ghost := by
  unfold bq27x00_read
  split
  · rfl
  · split <;> rfl

@[simp] theorem read_rsoc_ghost (env : Env σ) (di : bq27x00_device_info) (w : World σ) :
    (bq27x00_battery_read_rsoc env di w).2.ghost = w.ghost := by
  unfold bq27x00_battery_read_rsoc
  split <;> simp

@[simp] theorem read_charge_ghost (env : Env σ) (di : bq27x00_device_info) (w : World σ)
    (i : bq27x00_reg_index) :
    (bq27x00_battery_read_charge env di w i).2.ghost = w.ghost := by
  simp only [bq27x00_battery_read_charge]
  split_ifs <;> simp

@[simp] theorem read_lmd_ghost (env : Env σ) (di : bq27x00_device_info) (w : World σ) :
    (bq27x00_battery_read_lmd env di w).2.ghost = w.ghost := by
  simp [bq27x00_battery_read_lmd]

@[simp] theorem read_nac_ghost (env : Env σ) (di : bq27x00_device_info) (w : World σ) :
    (bq27x00_battery_read_nac env di w).2.ghost = w.ghost := by
  simp [bq27x00_battery_read_nac]

@[simp] theorem read_ilmd_ghost (env : Env σ) (di : bq27x00_device_info) (w : World σ) :
    (bq27x00_battery_read_ilmd env di w).2.ghost = w.ghost := by
  simp only [bq27x00_battery_read_ilmd]
  split_ifs <;> simp

@[simp] theorem read_cyct_ghost (env : Env σ) (di : bq27x00_device_info) (w : World σ) :
    (bq27x00_battery_read_cyct env di w).2.ghost = w.ghost := by
  simp [bq27x00_battery_read_cyct]

@[simp] theorem read_time_ghost (env : Env σ) (di : bq27x00_device_info) (w : World σ)
    (i : bq27x00_reg_index) :
    (bq27x00_battery_read_time env di w i).2.ghost = w.ghost := by
  simp only [bq27x00_battery_read_time]
  split_ifs <;> simp

theorem snapshot_ghost (env : Env σ) (di : bq27x00_device_info) (w : World σ) :
    (bq27x00_update_snapshot env di w).2.2.ghost = w.ghost := by
  simp only [bq27x00_update_snapshot]
  split_ifs <;> simp

/-- The first half of a refresh changes nothing of `di` but `charge_design_full`. -/
theorem snapshot_di (env : Env σ) (di : bq27x00_device_info) (w : World σ) :
    (bq27x00_update_snapshot env di w).2.1 =
      { di with charge_design_full :=
          (bq27x00_update_snapshot env di w).2.1.charge_design_full } := by
  simp only [bq27x00_update_snapshot]
  split_ifs <;> rfl

theorem ghost_changed {w w1 : World σ} (h : w1.ghost = w.ghost) : w1.changed = w.changed :=
  congrArg (fun g => g.1) h

theorem ghost_updates {w w1 : World σ} (h : w1.ghost = w.ghost) : w1.updates = w.updates :=
  congrArg (fun g => g.2.1) h

theorem read_changed (env : Env σ) (di : bq27x00_device_info) (w : World σ)
    (i : bq27x00_reg_index) (single : Bool) :
    (bq27x00_read env di w i single).2.changed = w.changed :=
  ghost_changed (read_ghost env di w i single)

theorem read_updates (env : Env σ) (di : bq27x00_device_info) (w : World σ)
    (i : bq27x00_reg_index) (single : Bool) :
    (bq27x00_read env di w i single).2.updates = w.updates :=
  ghost_updates (read_ghost env di w i single)

/-- The presence guard and the `switch` fire no event, run no refresh, and leave `di` alone
apart from the fake-battery latch, which only the Temp property writes. -/
theorem property_switch_frame (env : Env σ) (psp : power_supply_property)
    (di : bq27x00_device_info) (w : World σ) :
    (bq27x00_property_switch env psp di w).w.changed = w.changed ∧
    (bq27x00_property_switch env psp di w).w.updates = w.updates ∧
    (bq27x00_property_switch env psp di w).di =
      { di with fake_battery := (bq27x00_property_switch env psp di w).di.fake_battery } ∧
    (psp ≠ POWER_SUPPLY_PROP_TEMP → (bq27x00_property_switch env psp di w).di = di) := by
  have hc := read_changed env di w
  have hu := read_updates env di w
  cases psp <;>
    simp only [bq27x00_property_switch, bq27x00_battery_status, bq27x00_battery_voltage,
      bq27x00_battery_current, bq27x00_battery_energy, bq27x00_simple_value,
      bq27x00_battery_temperature, bq27x00_battery_read_nac, bq27x00_battery_read_charge] <;>
    split_ifs <;> simp [hc, hu]

/-! ## Register map and raw read -/

/-- C2: both register tables have 18 entries; the G3 table holds no 0xFF; the L1 table holds
0xFF at exactly the indices of TTF, TTECP, LMD, AE, RSOC and ILMD; and `bq27x00_read` returns
0 without touching the transport (world unchanged, no read logged) on such an entry, while on
every other entry it makes exactly one transport read, at the table's address and with the
caller's `single`, and returns what the transport returned. -/
theorem C2_register_map_read (env : Env σ) (di : bq27x00_device_info) (w : World σ)
    (i : bq27x00_reg_index) (single : Bool) :
    bq27x00_fw_g3_regs.length = 18 ∧ bq27x00_fw_l1_regs.length = 18 ∧
    (∀ n, n < 18 → bq27x00_fw_g3_regs.getD n 0 ≠ INVALID_REG_ADDR) ∧
    (∀ n, n < 18 → (bq27x00_fw_l1_regs.getD n 0 = INVALID_REG_ADDR ↔
      n ∈ [BQ27x00_REG_TTF.toNat, BQ27x00_REG_TTECP.toNat, BQ27x00_REG_LMD.toNat,
           BQ27x00_REG_AE.toNat, BQ27000_REG_RSOC.toNat, BQ27000_REG_ILMD.toNat])) ∧
    i.toNat < 18 ∧
    bq27x00_read env { di with regs := some bq27x00_fw_g3_regs } w i single =
      ((env.read w.bus (bq27x00_fw_g3_regs.getD i.toNat 0) single).1,
       w.afterRead env (bq27x00_fw_g3_regs.getD i.toNat 0) single) ∧
    bq27x00_read env { di with regs := some bq27x00_fw_l1_regs } w i single =
      (if i ∈ [BQ27x00_REG_TTF, BQ27x00_REG_TTECP, BQ27x00_REG_LMD, BQ27x00_REG_AE,
               BQ27000_REG_RSOC, BQ27000_REG_ILMD]
       then (0, w)
       else ((env.read w.bus (bq27x00_fw_l1_regs.getD i.toNat 0) single).1,
             w.afterRead env (bq27x00_fw_l1_regs.getD i.toNat 0) single)) := by
  refine ⟨rfl, rfl, by decide, by decide, ?_, ?_, ?_⟩
  · cases i <;> decide
  · cases i <;> rfl
  · cases i <;> rfl

/-! ## Current decoder -/

/-- C3: for every raw 16-bit value `r`, `bq27x00_battery_current` succeeds and stores, on Gen1
with cached current `r`, the exact integer `r*3570/20` when FLAGS bit 7 is clear and
`(-r)*3570/20` (quotient truncated toward zero) when it is set, and on Gen2, when the bus
returns `r` for CURRENT_AVG, the exact integer `sign_extend16(r)*1000`; no step leaves the
32-bit range. -/
theorem C3_current_decode (env : Env σ) (di : bq27x00_device_info) (w : World σ) (r : Int)
    (h0 : 0 ≤ r) (h1 : r ≤ 65535) :
    (di.chip = BQ27000 → di.cache.current_now = r →
      (bq27x00_battery_current env di w).ret = 0 ∧
      (bq27x00_battery_current env di w).val =
        some (if c_bit di.cache.flags 7 then Int.tdiv ((-r) * 3570) 20
              else Int.tdiv (r * 3570) 20)) ∧
    (di.chip = BQ27500 → (bq27x00_read env di w BQ27x00_REG_AI false).1 = r →
      (bq27x00_battery_current env di w).ret = 0 ∧
      (bq27x00_battery_current env di w).val =
        some ((if r < 32768 then r else r - 65536) * 1000)) := by
  constructor
  · intro hc hr
    have hne : ¬ (di.chip = BQ27500) := by rw [hc]; decide
    simp only [bq27x00_battery_current, hne, if_false, hr, BQ27000_FLAG_CHGS, BQ27000_RS,
      true_and]
    by_cases hb : c_bit di.cache.flags 7 = true
    · simp only [hb, if_true, c_neg, c_mul, c_div]
      rw [wrap32_of_range (-r) (by omega) (by omega),
        wrap32_of_range (-r * 3570) (by omega) (by omega)]
      have e : -r * 3570 = -(r * 3570) := by ring
      rw [e, tdiv20_neg _ (by omega)]
      rw [wrap32_of_range _ (by omega) (by omega)]
    · simp only [hb, Bool.false_eq_true, if_false, c_mul, c_div]
      rw [wrap32_of_range (r * 3570) (by omega) (by omega)]
      rw [tdiv20_of_nonneg _ (by omega)]
      rw [wrap32_of_range _ (by omega) (by omega)]
  · intro hc hr
    simp only [bq27x00_battery_current, hc, if_true, hr, true_and, c_mul, s16]
    congr 1
    split
    · rw [wrap32_of_range _ (by omega) (by omega)]
      omega
    · rw [wrap32_of_range _ (by omega) (by omega)]
      omega

/-- The scenarios of C3: Gen1 with raw current 100 and FLAGS bit 7 set reports -17850, and
Gen2 with the bus returning 0xFFEC for CURRENT_AVG reports -20000. -/
theorem C3_current_decode_witness :
    (bq27x00_battery_current (i2c_env false 100 0)
      ⟨BQ27000, ⟨0, 0, 0, 0, 0, 0, 0, 0, 0x80, 100⟩, 0, 0, none, 0,
        some bq27x00_fw_g3_regs, 0x0324, 0⟩ ⟨⟨true, 2, fun _ => 0⟩, [], 0, 0, false, 0⟩).val
      = some (-17850) ∧
    (bq27x00_battery_current (i2c_env false 100 0) s1_di
      ⟨s1_client, [], 0, 0, false, 0⟩).val = some (-20000) := by
  have h := (C3_current_decode (i2c_env false 100 0)
      ⟨BQ27000, ⟨0, 0, 0, 0, 0, 0, 0, 0, 0x80, 100⟩, 0, 0, none, 0,
        some bq27x00_fw_g3_regs, 0x0324, 0⟩ ⟨⟨true, 2, fun _ => 0⟩, [], 0, 0, false, 0⟩
      100 (by decide) (by decide)).1 rfl rfl
  have g := (C3_current_decode (i2c_env false 100 0) s1_di
      ⟨s1_client, [], 0, 0, false, 0⟩ 0xFFEC (by decide) (by decide)).2 rfl (by decide)
  rw [h.2, g.2]
  constructor <;> decide

/-! ## Torn-read guard of the platform transport -/

theorem lor_ne_neg_of_nonneg (a b e : Int) (ha : 0 ≤ a) (hb : 0 ≤ b) (he : e < 0) :
    Int.lor a b ≠ e := by
  obtain ⟨m, rfl⟩ := Int.eq_ofNat_of_zero_le ha
  obtain ⟨n, rfl⟩ := Int.eq_ofNat_of_zero_le hb
  have h : Int.lor (m : Int) (n : Int) = ((m ||| n : Nat) : Int) := rfl
  rw [h]
  omega

/-- C4 (as the code has it): over a byte-read callback none of whose results is negative, a
16-bit platform read whose high byte differs on every call fails with `-EIO` after exactly
four reads of the high byte (the initial one and one per pass of the loop) and three reads of
the low byte; and when all results are bytes, the read fails with `-EIO` exactly when each of
the three passes sees a high byte different from the one read just before it. -/
theorem C4_torn_read (sc : hdq_script) (reg : Nat)
    (hhi : ∀ n, 0 ≤ sc.hi n) (hlo : ∀ n, 0 ≤ sc.lo n) :
    ((∀ n, sc.hi n ≠ sc.hi (n + 1)) →
      bq27000_read_platform (hdq_read sc reg) ⟨0, 0⟩ reg false = (- EIO, ⟨4, 3⟩)) ∧
    ((∀ n, sc.hi n ≤ 255) →
      ((bq27000_read_platform (hdq_read sc reg) ⟨0, 0⟩ reg false).1 = - EIO ↔
        (sc.hi 0 ≠ sc.hi 1 ∧ sc.hi 1 ≠ sc.hi 2 ∧ sc.hi 2 ≠ sc.hi 3))) := by
  have n0 : ¬ (sc.hi 0 < 0) := by have := hhi 0; omega
  have n1 : ¬ (sc.hi 1 < 0) := by have := hhi 1; omega
  have n2 : ¬ (sc.hi 2 < 0) := by have := hhi 2; omega
  have l0 : ¬ (sc.lo 0 < 0) := by have := hlo 0; omega
  have l1 : ¬ (sc.lo 1 < 0) := by have := hlo 1; omega
  have l2 : ¬ (sc.lo 2 < 0) := by have := hlo 2; omega
  have ok : ∀ k j, (∀ n, sc.hi n ≤ 255) →
      Int.lor (wrap32 (sc.hi k * 256)) (sc.lo j) ≠ - EIO := by
    intro k j hb
    have h1 := hhi k
    have h2 := hb k
    apply lor_ne_neg_of_nonneg _ _ _ _ (hlo j) (by decide)
    rw [wrap32_of_range _ (by omega) (by omega)]
    omega
  constructor
  · intro hd
    have d0 := hd 0
    have d1 := hd 1
    have d2 := hd 2
    simp [bq27000_read_platform, bq27000_read_platform_loop, hdq_read, n0, n1, n2, l0, l1, l2,
      d0, d1, d2]
  · intro hb
    have n3 : ¬ (sc.hi 3 < 0) := by have := hhi 3; omega
    by_cases d0 : sc.hi 0 = sc.hi 1
    · have := ok 1 0 hb
      simp [bq27000_read_platform, bq27000_read_platform_loop, hdq_read, n1, l0, d0, this]
    · by_cases d1 : sc.hi 1 = sc.hi 2
      · have := ok 2 1 hb
        rw [d1] at d0
        simp [bq27000_read_platform, bq27000_read_platform_loop, hdq_read, n0, n2, l0, l1, d0,
          d1, this]
      · by_cases d2 : sc.hi 2 = sc.hi 3
        · have := ok 3 2 hb
          rw [d2] at d1
          simp [bq27000_read_platform, bq27000_read_platform_loop, hdq_read, n0, n1, n3, l0, l1,
            l2, d0, d1, d2, this]
        · simp [bq27000_read_platform, bq27000_read_platform_loop, hdq_read, n0, n1, n2, l0, l1,
            l2, d0, d1, d2]

/-- The scenario of C4 on a bus whose high byte counts 0, 1, 2, ... and whose low byte is 0. -/
theorem C4_torn_read_witness :
    bq27000_read_platform (hdq_read ⟨fun n => (n : Int), fun _ => 0⟩ 0x0A) ⟨0, 0⟩ 0x0A false
      = (- EIO, ⟨4, 3⟩) :=
  (C4_torn_read ⟨fun n => (n : Int), fun _ => 0⟩ 0x0A (fun n => by simp) (fun _ => by simp)).1
    (fun n => by simp)

/-- C4 as stated fails: on a bus whose high byte is 0, 1, 2, ... (never negative, different
on every call) the read fails with `-EIO`, but the high byte has then been read four times,
not three. -/
theorem C4_three_high_reads_counterexample :
    (∀ n : Nat, (0 : Int) ≤ (n : Int)) ∧ (∀ n : Nat, (n : Int) ≠ ((n + 1 : Nat) : Int)) ∧
    (bq27000_read_platform (hdq_read ⟨fun n => (n : Int), fun _ => 0⟩ 0x0A) ⟨0, 0⟩ 0x0A
      false).1 = - EIO ∧
    (bq27000_read_platform (hdq_read ⟨fun n => (n : Int), fun _ => 0⟩ 0x0A) ⟨0, 0⟩ 0x0A
      false).2.nhi = 4 ∧
    (bq27000_read_platform (hdq_read ⟨fun n => (n : Int), fun _ => 0⟩ 0x0A) ⟨0, 0⟩ 0x0A
      false).2.nhi ≠ 3 := by
  refine ⟨fun n => by omega, fun n => by omega, ?_, ?_, ?_⟩ <;>
    simp [bq27000_read_platform, bq27000_read_platform_loop, hdq_read]

/-! ## Change notification -/

theorem compared_eq_iff (a b : bq27x00_reg_cache) :
    a.compared = b.compared ↔
      (a.temperature = b.temperature ∧ a.internal_temp = b.internal_temp ∧
       a.time_to_empty = b.time_to_empty ∧ a.time_to_empty_avg = b.time_to_empty_avg ∧
       a.time_to_full = b.time_to_full ∧ a.charge_full = b.charge_full ∧
       a.cycle_count = b.cycle_count ∧ a.capacity = b.capacity ∧ a.flags = b.flags) := by
  simp [bq27x00_reg_cache.compared]

theorem update_unfold (env : Env σ) (now : Nat) (di : bq27x00_device_info) (w : World σ) :
    ((bq27x00_update_snapshot env di w).1.compared = di.cache.compared →
      (bq27x00_update env now di w).2.changed = w.changed ∧
      (bq27x00_update env now di w).1.cache = di.cache) ∧
    ((bq27x00_update_snapshot env di w).1.compared ≠ di.cache.compared →
      (bq27x00_update env now di w).2.changed = w.changed + 1 ∧
      (bq27x00_update env now di w).1.cache = (bq27x00_update_snapshot env di w).1) := by
  have hg := ghost_changed (snapshot_ghost env di w)
  have hd := snapshot_di env di w
  have hcache : (bq27x00_update_snapshot env di w).2.1.cache = di.cache := by rw [hd]
  constructor
  · intro h
    have h2 : ¬ ((bq27x00_update_snapshot env di w).2.1.cache.compared ≠
        (bq27x00_update_snapshot env di w).1.compared) := by
      rw [hcache, h]; simp
    simp only [bq27x00_update]
    rw [if_neg h2]
    exact ⟨hg, hcache⟩
  · intro h
    have h2 : (bq27x00_update_snapshot env di w).2.1.cache.compared ≠
        (bq27x00_update_snapshot env di w).1.compared := by
      rw [hcache]; exact fun e => h e.symm
    simp only [bq27x00_update]
    rw [if_pos h2]
    exact ⟨by simp only [hg], rfl⟩

/-- C6: in every refresh, if the snapshot just read agrees with the cached one on temperature,
internal_temp, time_to_empty, time_to_empty_avg, time_to_full, charge_full, cycle_count,
capacity and flags (whatever the two values of current_now), no changed event is fired and the
cache stays as it was; if it differs in any of these nine fields, exactly one changed event is
fired and the cache becomes the snapshot just read. -/
theorem C6_change_notification (env : Env σ) (now : Nat) (di : bq27x00_device_info)
    (w : World σ) :
    (((bq27x00_update_snapshot env di w).1.temperature = di.cache.temperature ∧
      (bq27x00_update_snapshot env di w).1.internal_temp = di.cache.internal_temp ∧
      (bq27x00_update_snapshot env di w).1.time_to_empty = di.cache.time_to_empty ∧
      (bq27x00_update_snapshot env di w).1.time_to_empty_avg = di.cache.time_to_empty_avg ∧
      (bq27x00_update_snapshot env di w).1.time_to_full = di.cache.time_to_full ∧
      (bq27x00_update_snapshot env di w).1.charge_full = di.cache.charge_full ∧
      (bq27x00_update_snapshot env di w).1.cycle_count = di.cache.cycle_count ∧
      (bq27x00_update_snapshot env di w).1.capacity = di.cache.capacity ∧
      (bq27x00_update_snapshot env di w).1.flags = di.cache.flags) →
      (bq27x00_update env now di w).2.changed = w.changed ∧
      (bq27x00_update env now di w).1.cache = di.cache) ∧
    (((bq27x00_update_snapshot env di w).1.temperature ≠ di.cache.temperature ∨
      (bq27x00_update_snapshot env di w).1.internal_temp ≠ di.cache.internal_temp ∨
      (bq27x00_update_snapshot env di w).1.time_to_empty ≠ di.cache.time_to_empty ∨
      (bq27x00_update_snapshot env di w).1.time_to_empty_avg ≠ di.cache.time_to_empty_avg ∨
      (bq27x00_update_snapshot env di w).1.time_to_full ≠ di.cache.time_to_full ∨
      (bq27x00_update_snapshot env di w).1.charge_full ≠ di.cache.charge_full ∨
      (bq27x00_update_snapshot env di w).1.cycle_count ≠ di.cache.cycle_count ∨
      (bq27x00_update_snapshot env di w).1.capacity ≠ di.cache.capacity ∨
      (bq27x00_update_snapshot env di w).1.flags ≠ di.cache.flags) →
      (bq27x00_update env now di w).2.changed = w.changed + 1 ∧
      (bq27x00_update env now di w).1.cache = (bq27x00_update_snapshot env di w).1) := by
  have hu := update_unfold env now di w
  constructor
  · intro h
    exact hu.1 ((compared_eq_iff _ _).2 h)
  · intro h
    apply hu.2
    intro e
    have e2 := (compared_eq_iff _ _).1 e
    tauto

/-- C6 at two concrete refreshes of a Gen1 device over I2C whose chip holds CURRENT_AVG = 100
and zero elsewhere: against a cache that differs from the chip in current_now alone no event
is fired and the cache keeps its old current, and against a cache that also differs in
capacity one event is fired. -/
theorem C6_change_notification_witness :
    ((bq27x00_update (i2c_env false 100 0) 0
      ⟨BQ27000, ⟨0, 0, 0, 0, 0, 0, 0, 0, 0, 7⟩, 0, 0, none, 0, some bq27x00_fw_g3_regs,
        0x0324, 0⟩ ⟨⟨true, 2, regfile_of [(0x14, 100)]⟩, [], 0, 0, false, 0⟩).2.changed = 0 ∧
     (bq27x00_update (i2c_env false 100 0) 0
      ⟨BQ27000, ⟨0, 0, 0, 0, 0, 0, 0, 0, 0, 7⟩, 0, 0, none, 0, some bq27x00_fw_g3_regs,
        0x0324, 0⟩ ⟨⟨true, 2, regfile_of [(0x14, 100)]⟩, [], 0, 0, false, 0⟩).1.cache =
      ⟨0, 0, 0, 0, 0, 0, 0, 0, 0, 7⟩) ∧
    ((bq27x00_update (i2c_env false 100 0) 0
      ⟨BQ27000, ⟨0, 0, 0, 0, 0, 0, 0, 50, 0, 7⟩, 0, 0, none, 0, some bq27x00_fw_g3_regs,
        0x0324, 0⟩ ⟨⟨true, 2, regfile_of [(0x14, 100)]⟩, [], 0, 0, false, 0⟩).2.changed = 0 + 1 ∧
     (bq27x00_update (i2c_env false 100 0) 0
      ⟨BQ27000, ⟨0, 0, 0, 0, 0, 0, 0, 50, 0, 7⟩, 0, 0, none, 0, some bq27x00_fw_g3_regs,
        0x0324, 0⟩ ⟨⟨true, 2, regfile_of [(0x14, 100)]⟩, [], 0, 0, false, 0⟩).1.cache =
      (bq27x00_update_snapshot (i2c_env false 100 0)
        ⟨BQ27000, ⟨0, 0, 0, 0, 0, 0, 0, 50, 0, 7⟩, 0, 0, none, 0, some bq27x00_fw_g3_regs,
          0x0324, 0⟩ ⟨⟨true, 2, regfile_of [(0x14, 100)]⟩, [], 0, 0, false, 0⟩).1) :=
  ⟨(C6_change_notification (i2c_env false 100 0) 0
      ⟨BQ27000, ⟨0, 0, 0, 0, 0, 0, 0, 0, 0, 7⟩, 0, 0, none, 0, some bq27x00_fw_g3_regs,
        0x0324, 0⟩ ⟨⟨true, 2, regfile_of [(0x14, 100)]⟩, [], 0, 0, false, 0⟩).1
      (by decide),
   (C6_change_notification (i2c_env false 100 0) 0
      ⟨BQ27000, ⟨0, 0, 0, 0, 0, 0, 0, 50, 0, 7⟩, 0, 0, none, 0, some bq27x00_fw_g3_regs,
        0x0324, 0⟩ ⟨⟨true, 2, regfile_of [(0x14, 100)]⟩, [], 0, 0, false, 0⟩).2
      (by decide)⟩

/-! ## Freshness window -/

theorem update_updates (env : Env σ) (now : Nat) (di : bq27x00_device_info) (w : World σ) :
    (bq27x00_update env now di w).2.updates = w.updates + 1 := by
  have hg := ghost_updates (snapshot_ghost env di w)
  simp only [bq27x00_update]
  split_ifs <;> simp [hg]

theorem update_last_update (env : Env σ) (now : Nat) (di : bq27x00_device_info)
    (w : World σ) : (bq27x00_update env now di w).1.last_update = now := by
  simp only [bq27x00_update]

theorem mod_lt_two (x M : Nat) (h : x < 2 * M) :
    x % M = if x < M then x else x - M := by
  split
  · exact Nat.mod_eq_of_lt ‹_›
  · rw [Nat.mod_eq_sub_mod (by omega)]
    exact Nat.mod_eq_of_lt (by omega)

/-- On the wrapping counter, `last + K` lies before `now` exactly when the ticks gone by
since `last` number more than `K` and at most `K` plus half the range of the counter. -/
theorem stale_iff (bits L J K : Nat) (hb : 0 < bits) (hK : K < 2 ^ (bits - 1)) :
    time_is_before_jiffies bits (L + K) J = true ↔
      (K < jiffies_elapsed bits L J ∧ jiffies_elapsed bits L J ≤ K + 2 ^ (bits - 1)) := by
  obtain ⟨b, rfl⟩ : ∃ b, bits = b + 1 := ⟨bits - 1, by omega⟩
  simp only [time_is_before_jiffies, jiffies_elapsed, decide_eq_true_eq,
    Nat.add_sub_cancel] at *
  have hM : 2 ^ (b + 1) = 2 ^ b + 2 ^ b := by rw [pow_succ]; omega
  have hpos : 0 < 2 ^ b := Nat.pow_pos (by decide)
  rw [hM]
  generalize 2 ^ b = H at *
  have hl : L % (H + H) < H + H := Nat.mod_lt _ (by omega)
  have hj : J % (H + H) < H + H := Nat.mod_lt _ (by omega)
  rw [← Nat.mod_add_mod L (H + H) K]
  generalize L % (H + H) = l at *
  generalize J % (H + H) = j at *
  rw [mod_lt_two (l + K) (H + H) (by omega)]
  rw [mod_lt_two (j + (H + H) - l) (H + H) (by omega)]
  by_cases h1 : l + K < H + H
  · rw [if_pos h1, mod_lt_two (l + K + (H + H) - j) (H + H) (by omega)]
    split_ifs <;> omega
  · rw [if_neg h1, mod_lt_two (l + K - (H + H) + (H + H) - j) (H + H) (by omega)]
    split_ifs <;> omega

theorem elapsed_add (bits n k : Nat) (hb : 0 < bits) (hk : k < 2 ^ bits) :
    jiffies_elapsed bits n (n + k) = k := by
  obtain ⟨b, rfl⟩ : ∃ b, bits = b + 1 := ⟨bits - 1, by omega⟩
  simp only [jiffies_elapsed]
  have hM : 2 ^ (b + 1) = 2 ^ b + 2 ^ b := by rw [pow_succ]; omega
  have hpos : 0 < 2 ^ b := Nat.pow_pos (by decide)
  rw [hM] at hk ⊢
  generalize 2 ^ b = H at *
  have hl : n % (H + H) < H + H := Nat.mod_lt _ (by omega)
  rw [← Nat.mod_add_mod n (H + H) k]
  generalize n % (H + H) = l at *
  rw [mod_lt_two (l + k) (H + H) (by omega)]
  by_cases h1 : l + k < H + H
  · rw [if_pos h1, mod_lt_two (l + k + (H + H) - l) (H + H) (by omega)]
    split_ifs <;> omega
  · rw [if_neg h1, mod_lt_two (l + k - (H + H) + (H + H) - l) (H + H) (by omega)]
    split_ifs <;> omega

theorem get_property_updates (env : Env σ) (now : Nat) (psp : power_supply_property)
    (di : bq27x00_device_info) (w : World σ) :
    (bq27x00_battery_get_property env now psp di w).w.updates =
      (if time_is_before_jiffies env.BITS_PER_LONG (di.last_update + 5 * env.HZ) now = true
       then w.updates + 1 else w.updates) ∧
    (bq27x00_battery_get_property env now psp di w).di.last_update =
      (if time_is_before_jiffies env.BITS_PER_LONG (di.last_update + 5 * env.HZ) now = true
       then now else di.last_update) := by
  have hf := property_switch_frame env psp (bq27x00_refresh_if_stale env now di w).1
    (bq27x00_refresh_if_stale env now di w).2
  have hl : (bq27x00_battery_get_property env now psp di w).di.last_update =
      (bq27x00_refresh_if_stale env now di w).1.last_update := by
    unfold bq27x00_battery_get_property
    rw [hf.2.2.1]
  unfold bq27x00_battery_get_property at hf ⊢
  rw [hf.2.1]
  unfold bq27x00_battery_get_property at hl
  rw [hl]
  simp only [bq27x00_refresh_if_stale, bq27x00_battery_poll]
  split_ifs
  · exact ⟨update_updates env now di w, update_last_update env now di w⟩
  · exact ⟨rfl, rfl⟩

/-- C7 (as the code has it): `jiffies` and `last_update` are tick counts that wrap at
`2^BITS_PER_LONG`. A property read runs a refresh (exactly one) if and only if the ticks gone
by since `last_update` on that counter number more than 5*HZ and at most
5*HZ + 2^(BITS_PER_LONG-1), and runs none otherwise; every refresh sets `last_update` to the
current time; hence, when a read at time `now` found the cache stale, a read 2 s later makes
one refresh in all, and a read 6 s later instead makes two. (HZ is positive and five seconds
are less than half the range of the counter.) -/
theorem C7_freshness_window (env : Env σ) (psp psp2 : power_supply_property)
    (di : bq27x00_device_info) (w : World σ) (now : Nat) (hHZ : 0 < env.HZ)
    (hb : 0 < env.BITS_PER_LONG) (hK : 5 * env.HZ < 2 ^ (env.BITS_PER_LONG - 1)) :
    ((bq27x00_battery_get_property env now psp di w).w.updates = w.updates + 1 ↔
      (5 * env.HZ < jiffies_elapsed env.BITS_PER_LONG di.last_update now ∧
       jiffies_elapsed env.BITS_PER_LONG di.last_update now ≤
         5 * env.HZ + 2 ^ (env.BITS_PER_LONG - 1))) ∧
    ((bq27x00_battery_get_property env now psp di w).w.updates = w.updates ↔
      ¬ (5 * env.HZ < jiffies_elapsed env.BITS_PER_LONG di.last_update now ∧
         jiffies_elapsed env.BITS_PER_LONG di.last_update now ≤
           5 * env.HZ + 2 ^ (env.BITS_PER_LONG - 1))) ∧
    (bq27x00_update env now di w).1.last_update = now ∧
    (bq27x00_update env now di w).2.updates = w.updates + 1 ∧
    ((5 * env.HZ < jiffies_elapsed env.BITS_PER_LONG di.last_update now ∧
      jiffies_elapsed env.BITS_PER_LONG di.last_update now ≤
        5 * env.HZ + 2 ^ (env.BITS_PER_LONG - 1)) →
      (bq27x00_battery_get_property env now psp di w).di.last_update = now ∧
      (bq27x00_battery_get_property env (now + 2 * env.HZ) psp2
        (bq27x00_battery_get_property env now psp di w).di
        (bq27x00_battery_get_property env now psp di w).w).w.updates = w.updates + 1 ∧
      (bq27x00_battery_get_property env (now + 6 * env.HZ) psp2
        (bq27x00_battery_get_property env now psp di w).di
        (bq27x00_battery_get_property env now psp di w).w).w.updates = w.updates + 2) := by
  have h1 := get_property_updates env now psp di w
  have hs := stale_iff env.BITS_PER_LONG di.last_update now (5 * env.HZ) hb hK
  have hM : 2 ^ env.BITS_PER_LONG = 2 ^ (env.BITS_PER_LONG - 1) + 2 ^ (env.BITS_PER_LONG - 1)
      := by
    obtain ⟨b, hbb⟩ : ∃ b, env.BITS_PER_LONG = b + 1 := ⟨env.BITS_PER_LONG - 1, by omega⟩
    rw [hbb, Nat.add_sub_cancel, pow_succ]
    omega
  refine ⟨?_, ?_, update_last_update env now di w, update_updates env now di w, ?_⟩
  · rw [h1.1, ← hs]
    split_ifs <;> simp [*]
  · rw [h1.1, ← hs]
    split_ifs <;> simp [*]
  · intro hst
    have hst2 := hs.2 hst
    have h2 := get_property_updates env (now + 2 * env.HZ) psp2
      (bq27x00_battery_get_property env now psp di w).di
      (bq27x00_battery_get_property env now psp di w).w
    have h6 := get_property_updates env (now + 6 * env.HZ) psp2
      (bq27x00_battery_get_property env now psp di w).di
      (bq27x00_battery_get_property env now psp di w).w
    simp only [hst2, if_true] at h1
    rw [h1.1, h1.2] at h2 h6
    have s2 := stale_iff env.BITS_PER_LONG now (now + 2 * env.HZ) (5 * env.HZ) hb hK
    have s6 := stale_iff env.BITS_PER_LONG now (now + 6 * env.HZ) (5 * env.HZ) hb hK
    rw [elapsed_add _ _ _ hb (by omega)] at s2 s6
    have n2 : ¬ (time_is_before_jiffies env.BITS_PER_LONG (now + 5 * env.HZ)
        (now + 2 * env.HZ) = true) := by
      rw [s2]; omega
    have n6 : time_is_before_jiffies env.BITS_PER_LONG (now + 5 * env.HZ)
        (now + 6 * env.HZ) = true := by
      rw [s6]; omega
    refine ⟨h1.2, ?_, ?_⟩
    · rw [h2.1, if_neg n2]
    · rw [h6.1, if_pos n6]

/-- C7 at HZ = 100 on a 32-bit counter that wraps between the refresh and the read: a cache
last refreshed at tick 4294967195 is stale at tick 500 (601 ticks later), so a Status read at
tick 500 refreshes; a Capacity read 200 ticks later makes one refresh in all, and one 600
ticks later makes two. -/
theorem C7_freshness_window_witness :
    (bq27x00_battery_get_property (i2c_env false 100 0) 500 POWER_SUPPLY_PROP_STATUS
      ⟨BQ27500, bq27x00_reg_cache.zero, 0, 0, none, 4294967195, some bq27x00_fw_l1_regs,
        0x0600, 0⟩ ⟨⟨true, 2, fun _ => 0⟩, [], 0, 0, false, 0⟩).w.updates = 0 + 1 ∧
    (bq27x00_battery_get_property (i2c_env false 100 0) (500 + 2 * 100)
        POWER_SUPPLY_PROP_CAPACITY
        (bq27x00_battery_get_property (i2c_env false 100 0) 500 POWER_SUPPLY_PROP_STATUS
          ⟨BQ27500, bq27x00_reg_cache.zero, 0, 0, none, 4294967195, some bq27x00_fw_l1_regs,
            0x0600, 0⟩ ⟨⟨true, 2, fun _ => 0⟩, [], 0, 0, false, 0⟩).di
        (bq27x00_battery_get_property (i2c_env false 100 0) 500 POWER_SUPPLY_PROP_STATUS
          ⟨BQ27500, bq27x00_reg_cache.zero, 0, 0, none, 4294967195, some bq27x00_fw_l1_regs,
            0x0600, 0⟩ ⟨⟨true, 2, fun _ => 0⟩, [], 0, 0, false, 0⟩).w).w.updates = 0 + 1 ∧
    (bq27x00_battery_get_property (i2c_env false 100 0) (500 + 6 * 100)
        POWER_SUPPLY_PROP_CAPACITY
        (bq27x00_battery_get_property (i2c_env false 100 0) 500 POWER_SUPPLY_PROP_STATUS
          ⟨BQ27500, bq27x00_reg_cache.zero, 0, 0, none, 4294967195, some bq27x00_fw_l1_regs,
            0x0600, 0⟩ ⟨⟨true, 2, fun _ => 0⟩, [], 0, 0, false, 0⟩).di
        (bq27x00_battery_get_property (i2c_env false 100 0) 500 POWER_SUPPLY_PROP_STATUS
          ⟨BQ27500, bq27x00_reg_cache.zero, 0, 0, none, 4294967195, some bq27x00_fw_l1_regs,
            0x0600, 0⟩ ⟨⟨true, 2, fun _ => 0⟩, [], 0, 0, false, 0⟩).w).w.updates = 0 + 2 := by
  have g := C7_freshness_window (i2c_env false 100 0) POWER_SUPPLY_PROP_STATUS
      POWER_SUPPLY_PROP_CAPACITY
      ⟨BQ27500, bq27x00_reg_cache.zero, 0, 0, none, 4294967195, some bq27x00_fw_l1_regs,
        0x0600, 0⟩ ⟨⟨true, 2, fun _ => 0⟩, [], 0, 0, false, 0⟩ 500 (by decide) (by decide)
      (by decide)
  exact ⟨g.1.2 (by decide), (g.2.2.2.2 (by decide)).2.1, (g.2.2.2.2 (by decide)).2.2⟩

/-- C7 as stated fails: at HZ = 100 on a 32-bit counter, with `last_update` = 0 and the
current time at tick 2147484248, the current time is more than 5*HZ ticks later than
`last_update` (no wrap is involved), yet the property read runs no refresh: the signed
difference the freshness test looks at, 500 - 2147484248 modulo 2^32, is positive. -/
theorem C7_half_range_counterexample :
    (0 + 5 * 100 < 2147484248) ∧ (2147484248 < 2 ^ 32) ∧
    (bq27x00_battery_get_property (i2c_env false 100 0) 2147484248 POWER_SUPPLY_PROP_STATUS
      ⟨BQ27500, bq27x00_reg_cache.zero, 0, 0, none, 0, some bq27x00_fw_l1_regs, 0x0600, 0⟩
      ⟨⟨true, 2, fun _ => 0⟩, [], 0, 0, false, 0⟩).w.updates = 0 ∧
    (bq27x00_battery_get_property (i2c_env false 100 0) 2147484248 POWER_SUPPLY_PROP_STATUS
      ⟨BQ27500, bq27x00_reg_cache.zero, 0, 0, none, 0, some bq27x00_fw_l1_regs, 0x0600, 0⟩
      ⟨⟨true, 2, fun _ => 0⟩, [], 0, 0, false, 0⟩).di.last_update = 0 := by
  refine ⟨by decide, by decide, by decide, by decide⟩

/-! ## Presence guard -/

/-- C8: on every device state the freshness check leaves, the Present property succeeds and
stores 1 when the cached FLAGS is non-negative and 0 when it is negative; and every other
property except Technology, read while the cached FLAGS is negative, fails with `-ENODEV`,
stores no value and leaves the device state as it was. -/
theorem C8_present_and_no_device (env : Env σ) (di : bq27x00_device_info) (w : World σ)
    (psp : power_supply_property) :
    (bq27x00_property_switch env POWER_SUPPLY_PROP_PRESENT di w).ret = 0 ∧
    (bq27x00_property_switch env POWER_SUPPLY_PROP_PRESENT di w).val =
      some (if 0 ≤ di.cache.flags then 1 else 0) ∧
    (psp ≠ POWER_SUPPLY_PROP_PRESENT → psp ≠ POWER_SUPPLY_PROP_TECHNOLOGY →
      di.cache.flags < 0 →
      (bq27x00_property_switch env psp di w).ret = - ENODEV ∧
      (bq27x00_property_switch env psp di w).val = none ∧
      (bq27x00_property_switch env psp di w).di = di ∧
      (bq27x00_property_switch env psp di w).w = w) := by
  refine ⟨?_, ?_, ?_⟩
  · simp [bq27x00_property_switch]
  · by_cases h : di.cache.flags < 0
    · simp [bq27x00_property_switch, h, Int.not_le.mpr h]
    · simp [bq27x00_property_switch, h, Int.not_lt.mp h]
  · intro h1 _ h3
    simp [bq27x00_property_switch, h1, h3]

/-- C8 at a concrete state: a Gen2 device whose last FLAGS read returned -5 answers a
Capacity read with `-ENODEV` and no value. -/
theorem C8_present_and_no_device_witness :
    (bq27x00_property_switch (i2c_env false 100 0) POWER_SUPPLY_PROP_CAPACITY
      ⟨BQ27500, ⟨0, 0, 0, 0, 0, 0, 0, 50, -5, 0⟩, 0, 0, none, 0, some bq27x00_fw_l1_regs,
        0x0600, 0⟩ ⟨⟨true, -5, fun _ => 0⟩, [], 0, 0, false, 0⟩).ret = - ENODEV ∧
    (bq27x00_property_switch (i2c_env false 100 0) POWER_SUPPLY_PROP_CAPACITY
      ⟨BQ27500, ⟨0, 0, 0, 0, 0, 0, 0, 50, -5, 0⟩, 0, 0, none, 0, some bq27x00_fw_l1_regs,
        0x0600, 0⟩ ⟨⟨true, -5, fun _ => 0⟩, [], 0, 0, false, 0⟩).val = none := by
  have h := (C8_present_and_no_device (i2c_env false 100 0)
      ⟨BQ27500, ⟨0, 0, 0, 0, 0, 0, 0, 50, -5, 0⟩, 0, 0, none, 0, some bq27x00_fw_l1_regs,
        0x0600, 0⟩ ⟨⟨true, -5, fun _ => 0⟩, [], 0, 0, false, 0⟩
      POWER_SUPPLY_PROP_CAPACITY).2.2 (by decide) (by decide) (by decide)
  exact ⟨h.1, h.2.1⟩

/-! ## Technology -/

/-- C9 (as the code has it): on every device state the freshness check leaves, a read of the
Technology property succeeds and stores the constant lithium-ion when the cached FLAGS is
non-negative, and fails with `-ENODEV`, storing nothing, when the cached FLAGS is negative. -/
theorem C9_technology (env : Env σ) (di : bq27x00_device_info) (w : World σ) :
    (0 ≤ di.cache.flags →
      (bq27x00_property_switch env POWER_SUPPLY_PROP_TECHNOLOGY di w).ret = 0 ∧
      (bq27x00_property_switch env POWER_SUPPLY_PROP_TECHNOLOGY di w).val =
        some POWER_SUPPLY_TECHNOLOGY_LION) ∧
    (di.cache.flags < 0 →
      (bq27x00_property_switch env POWER_SUPPLY_PROP_TECHNOLOGY di w).ret = - ENODEV ∧
      (bq27x00_property_switch env POWER_SUPPLY_PROP_TECHNOLOGY di w).val = none) := by
  constructor
  · intro h
    simp [bq27x00_property_switch, Int.not_lt.mpr h]
  · intro h
    simp [bq27x00_property_switch, h]

/-- C9 at a concrete state with FLAGS = 0: Technology is lithium-ion. -/
theorem C9_technology_witness :
    (bq27x00_property_switch (i2c_env false 100 0) POWER_SUPPLY_PROP_TECHNOLOGY
      ⟨BQ27500, bq27x00_reg_cache.zero, 0, 0, none, 0, some bq27x00_fw_l1_regs, 0x0600, 0⟩
      ⟨⟨true, 2, fun _ => 0⟩, [], 0, 0, false, 0⟩).val = some POWER_SUPPLY_TECHNOLOGY_LION :=
  ((C9_technology (i2c_env false 100 0)
      ⟨BQ27500, bq27x00_reg_cache.zero, 0, 0, none, 0, some bq27x00_fw_l1_regs, 0x0600, 0⟩
      ⟨⟨true, 2, fun _ => 0⟩, [], 0, 0, false, 0⟩).1 (by decide)).2

/-- C9 as stated fails: with a cached FLAGS of -5 (the last FLAGS read failed) a read of
Technology, at a time when the cache is fresh, returns `-ENODEV` and stores no value. -/
theorem C9_technology_counterexample :
    (bq27x00_battery_get_property (i2c_env false 100 0) 0 POWER_SUPPLY_PROP_TECHNOLOGY
      ⟨BQ27500, ⟨0, 0, 0, 0, 0, 0, 0, 0, -5, 0⟩, 0, 0, none, 0, some bq27x00_fw_l1_regs,
        0x0600, 0⟩ ⟨⟨true, -5, fun _ => 0⟩, [], 0, 0, false, 0⟩).ret = -19 ∧
    (bq27x00_battery_get_property (i2c_env false 100 0) 0 POWER_SUPPLY_PROP_TECHNOLOGY
      ⟨BQ27500, ⟨0, 0, 0, 0, 0, 0, 0, 0, -5, 0⟩, 0, 0, none, 0, some bq27x00_fw_l1_regs,
        0x0600, 0⟩ ⟨⟨true, -5, fun _ => 0⟩, [], 0, 0, false, 0⟩).val = none := by
  constructor <;> rfl

/-! ## Thermistor fallback -/

theorem tdiv2_wrap (a : Int) (h1 : -2147483648 < a) (h2 : a < 2147483648) :
    -2147483648 ≤ Int.tdiv a 2 ∧ Int.tdiv a 2 < 2147483648 := by
  by_cases h : 0 ≤ a
  · rw [Int.tdiv_eq_ediv h (by decide)]
    omega
  · have e : a = -(-a) := by omega
    rw [e, Int.neg_tdiv, Int.tdiv_eq_ediv (by omega) (by decide)]
    omega

/-- C10 (as the code has it): on every device state with non-negative cached FLAGS and
non-negative cached raw temperature whose decoded, board-translated thermistor reading is
below -350, the Temp property succeeds, sets the fake-battery latch and stores the decoded
internal temperature minus 200 tenths of a degree (20.0 degrees C): for a raw internal
temperature `t` within the 16-bit range that is exactly `t - 2731 - 200` on Gen2 and
`(t*5 - 5463)/2 - 200` (quotient truncated toward zero) on Gen1. -/
theorem C10_thermistor_fallback (env : Env σ) (di : bq27x00_device_info) (w : World σ)
    (hf : 0 ≤ di.cache.flags) (h0 : 0 ≤ di.cache.temperature)
    (h1 : bq27x00_thermistor_temperature di < -350) :
    (bq27x00_property_switch env POWER_SUPPLY_PROP_TEMP di w).ret = 0 ∧
    (bq27x00_property_switch env POWER_SUPPLY_PROP_TEMP di w).val =
      some (c_sub (bq27x00_temp_decode di.chip di.cache.internal_temp) 200) ∧
    (bq27x00_property_switch env POWER_SUPPLY_PROP_TEMP di w).di.fake_battery = 1 ∧
    (-65535 ≤ di.cache.internal_temp → di.cache.internal_temp ≤ 65535 →
      (bq27x00_property_switch env POWER_SUPPLY_PROP_TEMP di w).val =
        some (if di.chip = BQ27500 then di.cache.internal_temp - 2731 - 200
              else Int.tdiv (di.cache.internal_temp * 5 - 5463) 2 - 200)) := by
  have e : bq27x00_property_switch env POWER_SUPPLY_PROP_TEMP di w =
      ⟨0, some (c_sub (bq27x00_temp_decode di.chip di.cache.internal_temp) 200),
        { di with fake_battery := 1 },
        if !w.once then { w with once := true, warnings := w.warnings + 1 } else w⟩ := by
    simp only [bq27x00_property_switch, bq27x00_battery_temperature, Int.not_lt.mpr hf,
      Int.not_lt.mpr h0, and_false, if_false, h1, if_true]
  rw [e]
  refine ⟨rfl, rfl, rfl, ?_⟩
  intro l u
  simp only [bq27x00_temp_decode]
  congr 1
  split
  · simp only [c_sub]
    rw [wrap32_of_range (di.cache.internal_temp - 2731) (by omega) (by omega),
      wrap32_of_range _ (by omega) (by omega)]
  · simp only [c_sub, c_mul, c_div]
    rw [wrap32_of_range (di.cache.internal_temp * 5) (by omega) (by omega),
      wrap32_of_range (di.cache.internal_temp * 5 - 5463) (by omega) (by omega)]
    have hb := tdiv2_wrap (di.cache.internal_temp * 5 - 5463) (by omega) (by omega)
    rw [wrap32_of_range _ hb.1 hb.2]
    have hb2 : -1000000 ≤ Int.tdiv (di.cache.internal_temp * 5 - 5463) 2 ∧
        Int.tdiv (di.cache.internal_temp * 5 - 5463) 2 ≤ 1000000 := by
      by_cases h : 0 ≤ di.cache.internal_temp * 5 - 5463
      · rw [Int.tdiv_eq_ediv h (by decide)]
        omega
      · have e2 : di.cache.internal_temp * 5 - 5463 =
            -(-(di.cache.internal_temp * 5 - 5463)) := by omega
        rw [e2, Int.neg_tdiv, Int.tdiv_eq_ediv (by omega) (by decide)]
        omega
    rw [wrap32_of_range _ (by omega) (by omega)]

/-- Scenario S3 on the code: a Gen2 device with TEMP raw 2331 (decoding to -400) and INT_TEMP
raw 3101 reports Temp = 3101 - 2731 - 200 = 170 and sets the latch. -/
theorem C10_thermistor_fallback_witness :
    (bq27x00_property_switch (i2c_env false 100 0) POWER_SUPPLY_PROP_TEMP
      ⟨BQ27500, ⟨2331, 3101, 0, 0, 0, 0, 0, 50, 0, 0⟩, 0, 0, none, 0,
        some bq27x00_fw_l1_regs, 0x0600, 0⟩
      ⟨⟨true, 2, fun _ => 0⟩, [], 0, 0, false, 0⟩).val = some 170 := by
  have h := C10_thermistor_fallback (i2c_env false 100 0)
      ⟨BQ27500, ⟨2331, 3101, 0, 0, 0, 0, 0, 50, 0, 0⟩, 0, 0, none, 0,
        some bq27x00_fw_l1_regs, 0x0600, 0⟩
      ⟨⟨true, 2, fun _ => 0⟩, [], 0, 0, false, 0⟩ (by decide) (by decide) (by decide)
  rw [h.2.1]
  decide

/-- C10 as stated fails on scenario S3: with TEMP decoding to -400 and INT_TEMP raw 3101 on
Gen2 the Temp property stores 170, not (3101 - 2731) - 20 = 350. -/
theorem C10_offset_counterexample :
    bq27x00_thermistor_temperature
      ⟨BQ27500, ⟨2331, 3101, 0, 0, 0, 0, 0, 50, 0, 0⟩, 0, 0, none, 0,
        some bq27x00_fw_l1_regs, 0x0600, 0⟩ = -400 ∧
    (bq27x00_battery_get_property (i2c_env false 100 0) 0 POWER_SUPPLY_PROP_TEMP
      ⟨BQ27500, ⟨2331, 3101, 0, 0, 0, 0, 0, 50, 0, 0⟩, 0, 0, none, 0,
        some bq27x00_fw_l1_regs, 0x0600, 0⟩
      ⟨⟨true, 2, fun _ => 0⟩, [], 0, 0, false, 0⟩).val = some 170 ∧
    (bq27x00_battery_get_property (i2c_env false 100 0) 0 POWER_SUPPLY_PROP_TEMP
      ⟨BQ27500, ⟨2331, 3101, 0, 0, 0, 0, 0, 50, 0, 0⟩, 0, 0, none, 0,
        some bq27x00_fw_l1_regs, 0x0600, 0⟩
      ⟨⟨true, 2, fun _ => 0⟩, [], 0, 0, false, 0⟩).val ≠ some ((3101 - 2731) - 20) := by
  refine ⟨by decide, by decide, by decide⟩

/-! ## Fake-battery latch -/

theorem update_fake_battery (env : Env σ) (now : Nat) (di : bq27x00_device_info)
    (w : World σ) : (bq27x00_update env now di w).1.fake_battery = di.fake_battery := by
  have hd := snapshot_di env di w
  have hfb : (bq27x00_update_snapshot env di w).2.1.fake_battery = di.fake_battery := by
    rw [hd]
  simp only [bq27x00_update]
  split_ifs <;> exact hfb

theorem refresh_if_stale_fake_battery (env : Env σ) (now : Nat) (di : bq27x00_device_info)
    (w : World σ) :
    (bq27x00_refresh_if_stale env now di w).1.fake_battery = di.fake_battery := by
  simp only [bq27x00_refresh_if_stale, bq27x00_battery_poll]
  split_ifs
  · exact update_fake_battery env now di w
  · rfl

theorem get_property_di (env : Env σ) (now : Nat) (psp : power_supply_property)
    (di : bq27x00_device_info) (w : World σ) (h : psp ≠ POWER_SUPPLY_PROP_TEMP) :
    (bq27x00_battery_get_property env now psp di w).di =
      (bq27x00_refresh_if_stale env now di w).1 := by
  unfold bq27x00_battery_get_property
  exact (property_switch_frame env psp _ _).2.2.2 h

theorem driver_step_fake_battery (env : Env σ) (s : bq27x00_device_info × World σ)
    (op : driver_op) (h : op.isTempRead = false) :
    (driver_step env s op).1.fake_battery = s.1.fake_battery := by
  cases op with
  | refresh now =>
    simp only [driver_step, bq27x00_battery_poll]
    exact update_fake_battery env now s.1 s.2
  | read psp now =>
    have hp : psp ≠ POWER_SUPPLY_PROP_TEMP := by
      intro e
      rw [e] at h
      simp [driver_op.isTempRead] at h
    simp only [driver_step]
    rw [get_property_di env now psp s.1 s.2 hp]
    exact refresh_if_stale_fake_battery env now s.1 s.2

theorem driver_run_fake_battery (env : Env σ) (ops : List driver_op) :
    ∀ s : bq27x00_device_info × World σ, (∀ op ∈ ops, op.isTempRead = false) →
      (driver_run env s ops).1.fake_battery = s.1.fake_battery := by
  induction ops with
  | nil => intro s _; rfl
  | cons op rest ih =>
    intro s h
    have h1 := driver_step_fake_battery env s op (h op (List.mem_cons_self _ _))
    have h2 := ih (driver_step env s op) (fun o ho => h o (List.mem_cons_of_mem _ ho))
    simp only [driver_run, List.foldl_cons] at h2 ⊢
    rw [h2, h1]

theorem capacity_read (env : Env σ) (now : Nat) (di : bq27x00_device_info) (w : World σ)
    (h : 0 ≤ (bq27x00_battery_get_property env now POWER_SUPPLY_PROP_CAPACITY di w).di.cache.flags) :
    (di.fake_battery ≠ 0 →
      (bq27x00_battery_get_property env now POWER_SUPPLY_PROP_CAPACITY di w).ret = 0 ∧
      (bq27x00_battery_get_property env now POWER_SUPPLY_PROP_CAPACITY di w).val = some 96) ∧
    (di.fake_battery = 0 →
      (bq27x00_battery_get_property env now POWER_SUPPLY_PROP_CAPACITY di w).ret =
        (if (bq27x00_battery_get_property env now POWER_SUPPLY_PROP_CAPACITY di w).di.cache.capacity
            < 0
         then (bq27x00_battery_get_property env now POWER_SUPPLY_PROP_CAPACITY di w).di.cache.capacity
         else 0) ∧
      (bq27x00_battery_get_property env now POWER_SUPPLY_PROP_CAPACITY di w).val =
        (if (bq27x00_battery_get_property env now POWER_SUPPLY_PROP_CAPACITY di w).di.cache.capacity
            < 0
         then none
         else some
           (bq27x00_battery_get_property env now POWER_SUPPLY_PROP_CAPACITY di w).di.cache.capacity))
    := by
  have hd := get_property_di env now POWER_SUPPLY_PROP_CAPACITY di w (by decide)
  have hfb := refresh_if_stale_fake_battery env now di w
  rw [hd] at h ⊢
  have hn : ¬ ((bq27x00_refresh_if_stale env now di w).1.cache.flags < 0) := Int.not_lt.mpr h
  constructor
  · intro hne
    rw [← hfb] at hne
    simp [bq27x00_battery_get_property, bq27x00_property_switch, hn, hne]
  · intro he
    rw [← hfb] at he
    simp only [bq27x00_battery_get_property, bq27x00_property_switch, hn, and_false, if_false,
      he, ne_eq, not_true_eq_false, bq27x00_simple_value]
    split_ifs <;> exact ⟨rfl, rfl⟩

theorem after_temp_read_fake_battery (env : Env σ) (di : bq27x00_device_info) (w : World σ)
    (hf : 0 ≤ di.cache.flags) (h0 : 0 ≤ di.cache.temperature) :
    (after_temp_read env di w).1.fake_battery =
      (if bq27x00_thermistor_temperature di < -350 then 1 else 0) := by
  simp only [after_temp_read, bq27x00_property_switch, bq27x00_battery_temperature,
    Int.not_lt.mpr hf, Int.not_lt.mpr h0, and_false, if_false]
  split_ifs <;> rfl

/-- C5 (as the code has it): take a device state with non-negative cached FLAGS and
non-negative cached raw temperature, read Temp on it, then run any sequence of refreshes and
property reads other than Temp, then read Capacity at a moment when the cached FLAGS is
non-negative. If the Temp read decoded a temperature below -350, the latch is still set after
the sequence and the Capacity read succeeds with 96 whatever the cached capacity; if it
decoded a temperature of at least -350, the latch is still clear and the Capacity read gives
the cached capacity: as the value when it is non-negative, as the error code when it is
negative. -/
theorem C5_fake_battery_latch (env : Env σ) (di : bq27x00_device_info) (w : World σ)
    (ops : List driver_op) (now : Nat)
    (hf : 0 ≤ di.cache.flags) (h0 : 0 ≤ di.cache.temperature)
    (hops : ∀ op ∈ ops, op.isTempRead = false)
    (hcap : 0 ≤ (capacity_read_after env di w ops now).di.cache.flags) :
    (bq27x00_thermistor_temperature di < -350 →
      (driver_run env (after_temp_read env di w) ops).1.fake_battery = 1 ∧
      (capacity_read_after env di w ops now).ret = 0 ∧
      (capacity_read_after env di w ops now).val = some 96) ∧
    (-350 ≤ bq27x00_thermistor_temperature di →
      (driver_run env (after_temp_read env di w) ops).1.fake_battery = 0 ∧
      (capacity_read_after env di w ops now).ret =
        (if (capacity_read_after env di w ops now).di.cache.capacity < 0
         then (capacity_read_after env di w ops now).di.cache.capacity else 0) ∧
      (capacity_read_after env di w ops now).val =
        (if (capacity_read_after env di w ops now).di.cache.capacity < 0
         then none else some (capacity_read_after env di w ops now).di.cache.capacity)) := by
  have hrun := driver_run_fake_battery env ops (after_temp_read env di w) hops
  have ht := after_temp_read_fake_battery env di w hf h0
  have hc := capacity_read env now (driver_run env (after_temp_read env di w) ops).1
    (driver_run env (after_temp_read env di w) ops).2 hcap
  constructor
  · intro hlow
    rw [if_pos hlow] at ht
    have h1 : (driver_run env (after_temp_read env di w) ops).1.fake_battery = 1 := by
      rw [hrun, ht]
    exact ⟨h1, hc.1 (by rw [h1]; decide)⟩
  · intro hhigh
    rw [if_neg (Int.not_lt.mpr hhigh)] at ht
    have h1 : (driver_run env (after_temp_read env di w) ops).1.fake_battery = 0 := by
      rw [hrun, ht]
    exact ⟨h1, hc.2 h1⟩

/-- The latch at work on a Gen2 chip over I2C whose FLAGS is 0 and SOC is 75: after a Temp
read that decodes -400, then a refresh, a Capacity read and another refresh, a Capacity read
gives 96. -/
theorem C5_fake_battery_latch_witness :
    (capacity_read_after (i2c_env false 100 0)
      ⟨BQ27500, ⟨2331, 3101, 0, 0, 0, 0, 0, 75, 0, 0⟩, 0, 0, none, 0,
        some bq27x00_fw_l1_regs, 0x0600, 0⟩
      ⟨⟨true, 2, regfile_of [(0x06, 2331), (0x28, 3101), (0x20, 75)]⟩, [], 0, 0, false, 0⟩
      [driver_op.refresh 10, driver_op.read POWER_SUPPLY_PROP_CAPACITY 20,
        driver_op.refresh 1000] 1001).val = some 96 :=
  ((C5_fake_battery_latch (i2c_env false 100 0)
      ⟨BQ27500, ⟨2331, 3101, 0, 0, 0, 0, 0, 75, 0, 0⟩, 0, 0, none, 0,
        some bq27x00_fw_l1_regs, 0x0600, 0⟩
      ⟨⟨true, 2, regfile_of [(0x06, 2331), (0x28, 3101), (0x20, 75)]⟩, [], 0, 0, false, 0⟩
      [driver_op.refresh 10, driver_op.read POWER_SUPPLY_PROP_CAPACITY 20,
        driver_op.refresh 1000] 1001 (by decide) (by decide) (by decide) (by decide)).1
    (by decide)).2.2

/-- C5 as stated fails: from a state with cached FLAGS 0, after a Temp read that decodes -400
(which sets the latch), one refresh over a bus on which every transfer returns -5 makes the
cached FLAGS negative, and the next Capacity read fails with `-ENODEV` instead of giving 96. -/
theorem C5_latch_counterexample :
    bq27x00_thermistor_temperature
      ⟨BQ27500, ⟨2331, 3101, 0, 0, 0, 0, 0, 75, 0, 0⟩, 0, 0, none, 0,
        some bq27x00_fw_l1_regs, 0x0600, 0⟩ = -400 ∧
    (after_temp_read (i2c_env false 100 0)
      ⟨BQ27500, ⟨2331, 3101, 0, 0, 0, 0, 0, 75, 0, 0⟩, 0, 0, none, 0,
        some bq27x00_fw_l1_regs, 0x0600, 0⟩
      ⟨⟨true, -5, fun _ => 0⟩, [], 0, 0, false, 0⟩).1.fake_battery = 1 ∧
    (capacity_read_after (i2c_env false 100 0)
      ⟨BQ27500, ⟨2331, 3101, 0, 0, 0, 0, 0, 75, 0, 0⟩, 0, 0, none, 0,
        some bq27x00_fw_l1_regs, 0x0600, 0⟩
      ⟨⟨true, -5, fun _ => 0⟩, [], 0, 0, false, 0⟩ [driver_op.refresh 0] 0).ret = -19 ∧
    (capacity_read_after (i2c_env false 100 0)
      ⟨BQ27500, ⟨2331, 3101, 0, 0, 0, 0, 0, 75, 0, 0⟩, 0, 0, none, 0,
        some bq27x00_fw_l1_regs, 0x0600, 0⟩
      ⟨⟨true, -5, fun _ => 0⟩, [], 0, 0, false, 0⟩ [driver_op.refresh 0] 0).val = none := by
  refine ⟨by decide, by decide, by decide, by decide⟩

/-! ## Scenario S1 and the Gen2 FLAGS read -/

theorem read_i2c_single_lt (client : i2c_client) (reg : Nat) :
    (bq27x00_read_i2c client reg true).1 < 256 := by
  simp only [bq27x00_read_i2c]
  split_ifs
  · simp [ENODEV]
  · omega
  · simp at *
  · simp only
    omega

theorem i2c_read_single_lt (a : Bool) (hz : Nat) (rr : Int) (di : bq27x00_device_info)
    (w : World i2c_client) (i : bq27x00_reg_index) :
    (bq27x00_read (i2c_env a hz rr) di w i true).1 < 256 := by
  unfold bq27x00_read
  split
  · show (0 : Int) < 256
    decide
  · split
    · show (0 : Int) < 256
      decide
    · exact read_i2c_single_lt _ _

theorem snapshot_flags (env : Env σ) (di : bq27x00_device_info) (w : World σ) :
    (bq27x00_update_snapshot env di w).1.flags =
      (bq27x00_read env di w BQ27x00_REG_FLAGS (decide (di.chip = BQ27500))).1 := by
  simp only [bq27x00_update_snapshot]
  split_ifs <;> rfl

theorem update_flags (env : Env σ) (now : Nat) (di : bq27x00_device_info) (w : World σ) :
    (bq27x00_update env now di w).1.cache.flags =
      (bq27x00_read env di w BQ27x00_REG_FLAGS (decide (di.chip = BQ27500))).1 := by
  have hu := update_unfold env now di w
  rw [← snapshot_flags]
  by_cases h : (bq27x00_update_snapshot env di w).1.compared = di.cache.compared
  · rw [(hu.1 h).2]
    exact ((compared_eq_iff _ _).1 h).2.2.2.2.2.2.2.2.symm
  · rw [(hu.2 h).2]

theorem update_chip (env : Env σ) (now : Nat) (di : bq27x00_device_info) (w : World σ) :
    (bq27x00_update env now di w).1.chip = di.chip := by
  have hd := snapshot_di env di w
  have hc : (bq27x00_update_snapshot env di w).2.1.chip = di.chip := by rw [hd]
  simp only [bq27x00_update]
  split_ifs <;> exact hc

theorem gen2_status_not_full (env : Env σ) (di : bq27x00_device_info) (w : World σ)
    (hc : di.chip = BQ27500) (hfl : di.cache.flags < 256) :
    (bq27x00_property_switch env POWER_SUPPLY_PROP_STATUS di w).val ≠
      some POWER_SUPPLY_STATUS_FULL := by
  by_cases hn : di.cache.flags < 0
  · simp [bq27x00_property_switch, hn]
  · have hb : c_bit di.cache.flags BQ27500_FLAG_FC = false := by
      simp only [c_bit, BQ27500_FLAG_FC, decide_eq_false_iff_not]
      norm_num
      omega
    simp only [bq27x00_property_switch, hn, and_false, if_false, bq27x00_battery_status, hc,
      if_true, hb, Bool.false_eq_true]
    split_ifs <;> decide

/-- C1 on the code: in scenario S1 the refresh caches FLAGS = 0 (the Gen2 FLAGS register is
read with `single` set, so only its low byte arrives), and the property server then reports
Status = Charging, not Full, next to Temp = 270, VoltageNow = 3800000, CurrentNow = -20000 and
Capacity = 75; and for every Gen2 device on the I2C transport, whatever the chip holds, a
Status read after a refresh never reports Full. -/
theorem C1_s1_status_not_full :
    s1_refreshed.1.cache.flags = 0 ∧
    (bq27x00_battery_get_property (i2c_env false 100 0) 0 POWER_SUPPLY_PROP_STATUS
      s1_refreshed.1 s1_refreshed.2).ret = 0 ∧
    (bq27x00_battery_get_property (i2c_env false 100 0) 0 POWER_SUPPLY_PROP_STATUS
      s1_refreshed.1 s1_refreshed.2).val = some POWER_SUPPLY_STATUS_CHARGING ∧
    (bq27x00_battery_get_property (i2c_env false 100 0) 0 POWER_SUPPLY_PROP_TEMP
      s1_refreshed.1 s1_refreshed.2).val = some 270 ∧
    (bq27x00_battery_get_property (i2c_env false 100 0) 0 POWER_SUPPLY_PROP_VOLTAGE_NOW
      s1_refreshed.1 s1_refreshed.2).val = some 3800000 ∧
    (bq27x00_battery_get_property (i2c_env false 100 0) 0 POWER_SUPPLY_PROP_CURRENT_NOW
      s1_refreshed.1 s1_refreshed.2).val = some (-20000) ∧
    (bq27x00_battery_get_property (i2c_env false 100 0) 0 POWER_SUPPLY_PROP_CAPACITY
      s1_refreshed.1 s1_refreshed.2).val = some 75 ∧
    (∀ (a : Bool) (hz : Nat) (rr : Int) (di : bq27x00_device_info) (w : World i2c_client)
        (now now2 : Nat), di.chip = BQ27500 →
      (bq27x00_battery_get_property (i2c_env a hz rr) now2 POWER_SUPPLY_PROP_STATUS
        (bq27x00_update (i2c_env a hz rr) now di w).1
        (bq27x00_update (i2c_env a hz rr) now di w).2).val ≠
          some POWER_SUPPLY_STATUS_FULL) := by
  refine ⟨by decide, by decide, by decide, by decide, by decide, by decide, by decide, ?_⟩
  intro a hz rr di w now now2 hc
  have hc1 := update_chip (i2c_env a hz rr) now di w
  have hf1 : (bq27x00_update (i2c_env a hz rr) now di w).1.cache.flags < 256 := by
    rw [update_flags, hc]
    exact i2c_read_single_lt a hz rr di w _
  simp only [bq27x00_battery_get_property, bq27x00_refresh_if_stale, bq27x00_battery_poll]
  split_ifs
  · apply gen2_status_not_full
    · rw [update_chip, hc1, hc]
    · rw [update_flags, hc1, hc]
      exact i2c_read_single_lt a hz rr _ _ _
  · exact gen2_status_not_full _ _ _ (by rw [hc1, hc]) hf1

/-! ## Temperature decode -/

/-- C13: `bq27x00_battery_status` always succeeds. On Gen1 it stores Full if bit 5 of the
cached FLAGS is set, else Charging if bit 7 is set, else NotCharging if the host reports an
external supply online and Discharging if not; on Gen2 it stores Full if bit 9 is set, else
Discharging if bit 0 is set, else Charging. The stored value is one of Full, Charging,
Discharging, NotCharging, and two FLAGS words that agree on the two bits of the chip's
generation give the same status. With non-negative cached FLAGS this is the Status
property. -/
theorem C13_status_derivation (env : Env σ) (di di2 : bq27x00_device_info) (w w2 : World σ) :
    (bq27x00_battery_status env di w).ret = 0 ∧
    (di.chip = BQ27000 →
      (bq27x00_battery_status env di w).val =
        some (if c_bit di.cache.flags 5 then POWER_SUPPLY_STATUS_FULL
              else if c_bit di.cache.flags 7 then POWER_SUPPLY_STATUS_CHARGING
              else if env.am_i_supplied then POWER_SUPPLY_STATUS_NOT_CHARGING
              else POWER_SUPPLY_STATUS_DISCHARGING)) ∧
    (di.chip = BQ27500 →
      (bq27x00_battery_status env di w).val =
        some (if c_bit di.cache.flags 9 then POWER_SUPPLY_STATUS_FULL
              else if c_bit di.cache.flags 0 then POWER_SUPPLY_STATUS_DISCHARGING
              else POWER_SUPPLY_STATUS_CHARGING)) ∧
    ((bq27x00_battery_status env di w).val = some POWER_SUPPLY_STATUS_FULL ∨
     (bq27x00_battery_status env di w).val = some POWER_SUPPLY_STATUS_CHARGING ∨
     (bq27x00_battery_status env di w).val = some POWER_SUPPLY_STATUS_DISCHARGING ∨
     (bq27x00_battery_status env di w).val = some POWER_SUPPLY_STATUS_NOT_CHARGING) ∧
    (di2.chip = di.chip →
      (di.chip = BQ27000 → c_bit di2.cache.flags 5 = c_bit di.cache.flags 5 ∧
        c_bit di2.cache.flags 7 = c_bit di.cache.flags 7) →
      (di.chip = BQ27500 → c_bit di2.cache.flags 9 = c_bit di.cache.flags 9 ∧
        c_bit di2.cache.flags 0 = c_bit di.cache.flags 0) →
      (bq27x00_battery_status env di2 w2).val = (bq27x00_battery_status env di w).val) ∧
    (0 ≤ di.cache.flags →
      bq27x00_property_switch env POWER_SUPPLY_PROP_STATUS di w =
        bq27x00_battery_status env di w) := by
  refine ⟨rfl, ?_, ?_, ?_, ?_, ?_⟩
  · intro hc
    simp [bq27x00_battery_status, hc, BQ27000_FLAG_FC, BQ27000_FLAG_CHGS]
  · intro hc
    simp [bq27x00_battery_status, hc, BQ27500_FLAG_FC, BQ27500_FLAG_DSC]
  · simp only [bq27x00_battery_status]
    split_ifs <;> simp
  · intro hc h1 h2
    cases hchip : di.chip with
    | BQ27000 =>
      have hb := h1 hchip
      rw [hchip] at hc
      simp [bq27x00_battery_status, hc, hchip, BQ27000_FLAG_FC, BQ27000_FLAG_CHGS, hb.1, hb.2]
    | BQ27500 =>
      have hb := h2 hchip
      rw [hchip] at hc
      simp [bq27x00_battery_status, hc, hchip, BQ27500_FLAG_FC, BQ27500_FLAG_DSC, hb.1, hb.2]
  · intro hf
    simp only [bq27x00_property_switch, Int.not_lt.mpr hf, and_false, if_false]

/-- C13 at concrete FLAGS words: on Gen1, 0x80 (bit 7 alone) is Charging; on Gen2, 0x0201
(bits 9 and 0) is Full. -/
theorem C13_status_derivation_witness :
    (bq27x00_battery_status (i2c_env false 100 0)
      ⟨BQ27000, ⟨0, 0, 0, 0, 0, 0, 0, 0, 0x80, 0⟩, 0, 0, none, 0, some bq27x00_fw_g3_regs,
        0x0324, 0⟩ ⟨⟨true, 2, fun _ => 0⟩, [], 0, 0, false, 0⟩).val
      = some POWER_SUPPLY_STATUS_CHARGING ∧
    (bq27x00_battery_status (i2c_env false 100 0)
      ⟨BQ27500, ⟨0, 0, 0, 0, 0, 0, 0, 0, 0x0201, 0⟩, 0, 0, none, 0, some bq27x00_fw_l1_regs,
        0x0600, 0⟩ ⟨⟨true, 2, fun _ => 0⟩, [], 0, 0, false, 0⟩).val
      = some POWER_SUPPLY_STATUS_FULL := by
  have g1 := (C13_status_derivation (i2c_env false 100 0)
      ⟨BQ27000, ⟨0, 0, 0, 0, 0, 0, 0, 0, 0x80, 0⟩, 0, 0, none, 0, some bq27x00_fw_g3_regs,
        0x0324, 0⟩
      ⟨BQ27000, ⟨0, 0, 0, 0, 0, 0, 0, 0, 0x80, 0⟩, 0, 0, none, 0, some bq27x00_fw_g3_regs,
        0x0324, 0⟩ ⟨⟨true, 2, fun _ => 0⟩, [], 0, 0, false, 0⟩
      ⟨⟨true, 2, fun _ => 0⟩, [], 0, 0, false, 0⟩).2.1 rfl
  have g2 := (C13_status_derivation (i2c_env false 100 0)
      ⟨BQ27500, ⟨0, 0, 0, 0, 0, 0, 0, 0, 0x0201, 0⟩, 0, 0, none, 0, some bq27x00_fw_l1_regs,
        0x0600, 0⟩
      ⟨BQ27500, ⟨0, 0, 0, 0, 0, 0, 0, 0, 0x0201, 0⟩, 0, 0, none, 0, some bq27x00_fw_l1_regs,
        0x0600, 0⟩ ⟨⟨true, 2, fun _ => 0⟩, [], 0, 0, false, 0⟩
      ⟨⟨true, 2, fun _ => 0⟩, [], 0, 0, false, 0⟩).2.2.1 rfl
  rw [g1, g2]
  constructor <;> decide

/-! ## Capacity and energy decoders -/

/-- C14: for every raw value `r` in 0..65535 that the transport returns, the charge decoder
(used for NAC and LMD) gives exactly `r*3570/20` on Gen1 and `r*1000` on Gen2, the energy
decoder exactly `r*29200/20` on Gen1 and `r*1000` on Gen2, and the design-capacity decoder
exactly `r*1000` on Gen2 and, for a single-byte raw value `r` in 0..255, `r*256*3570/20` on
Gen1; the quotients are truncated, no step leaves the 32-bit range, and every result is
non-negative. -/
theorem C14_capacity_energy_decode (env : Env σ) (di : bq27x00_device_info) (w : World σ)
    (r : Int) (h0 : 0 ≤ r) (h1 : r ≤ 65535) :
    (∀ reg, (bq27x00_read env di w reg false).1 = r →
      (bq27x00_battery_read_charge env di w reg).1 =
        (if di.chip = BQ27500 then r * 1000 else Int.tdiv (r * 3570) 20) ∧
      0 ≤ (bq27x00_battery_read_charge env di w reg).1) ∧
    ((bq27x00_read env di w BQ27x00_REG_NAC false).1 = r →
      (bq27x00_battery_read_nac env di w).1 =
        (if di.chip = BQ27500 then r * 1000 else Int.tdiv (r * 3570) 20)) ∧
    ((bq27x00_read env di w BQ27x00_REG_LMD false).1 = r →
      (bq27x00_battery_read_lmd env di w).1 =
        (if di.chip = BQ27500 then r * 1000 else Int.tdiv (r * 3570) 20)) ∧
    ((bq27x00_read env di w BQ27x00_REG_AE false).1 = r →
      (bq27x00_battery_energy env di w).ret = 0 ∧
      (bq27x00_battery_energy env di w).val =
        some (if di.chip = BQ27500 then r * 1000 else Int.tdiv (r * 29200) 20) ∧
      0 ≤ (if di.chip = BQ27500 then r * 1000 else Int.tdiv (r * 29200) 20)) ∧
    (di.chip = BQ27500 → (bq27x00_read env di w BQ27500_REG_DCAP false).1 = r →
      (bq27x00_battery_read_ilmd env di w).1 = r * 1000 ∧
      0 ≤ (bq27x00_battery_read_ilmd env di w).1) ∧
    (di.chip = BQ27000 → r ≤ 255 → (bq27x00_read env di w BQ27000_REG_ILMD true).1 = r →
      (bq27x00_battery_read_ilmd env di w).1 = Int.tdiv (r * 256 * 3570) 20 ∧
      0 ≤ (bq27x00_battery_read_ilmd env di w).1) := by
  have hn : ¬ (r < 0) := Int.not_lt.mpr h0
  have hcharge : ∀ reg, (bq27x00_read env di w reg false).1 = r →
      (bq27x00_battery_read_charge env di w reg).1 =
        (if di.chip = BQ27500 then r * 1000 else Int.tdiv (r * 3570) 20) ∧
      0 ≤ (bq27x00_battery_read_charge env di w reg).1 := by
    intro reg hr
    simp only [bq27x00_battery_read_charge, hr, hn, if_false, BQ27000_RS]
    split
    · simp only [c_mul]
      rw [wrap32_of_range _ (by omega) (by omega)]
      exact ⟨rfl, by omega⟩
    · simp only [c_mul, c_div]
      rw [wrap32_of_range (r * 3570) (by omega) (by omega), tdiv20_of_nonneg _ (by omega),
        wrap32_of_range _ (by omega) (by omega)]
      exact ⟨rfl, by omega⟩
  refine ⟨hcharge, ?_, ?_, ?_, ?_, ?_⟩
  · intro hr
    exact (hcharge _ hr).1
  · intro hr
    exact (hcharge _ hr).1
  · intro hr
    simp only [bq27x00_battery_energy, hr, hn, if_false, BQ27000_RS]
    split
    · simp only [c_mul]
      rw [wrap32_of_range _ (by omega) (by omega)]
      exact ⟨trivial, rfl, by omega⟩
    · simp only [c_mul, c_div]
      rw [wrap32_of_range (r * 29200) (by omega) (by omega), tdiv20_of_nonneg _ (by omega),
        wrap32_of_range _ (by omega) (by omega)]
      exact ⟨trivial, rfl, by omega⟩
  · intro hc hr
    simp only [bq27x00_battery_read_ilmd, hc, if_true, hr, hn, if_false, c_mul]
    rw [wrap32_of_range _ (by omega) (by omega)]
    exact ⟨rfl, by omega⟩
  · intro hc hb hr
    have hne : ¬ (di.chip = BQ27500) := by rw [hc]; decide
    simp only [bq27x00_battery_read_ilmd, hne, if_false, hr, hn, c_mul, c_div, BQ27000_RS]
    rw [wrap32_of_range (r * 256) (by omega) (by omega),
      wrap32_of_range (r * 256 * 3570) (by omega) (by omega), tdiv20_of_nonneg _ (by omega),
      wrap32_of_range _ (by omega) (by omega)]
    exact ⟨rfl, by omega⟩

/-- C14 at the top of the range: on a Gen1 chip over I2C whose AE register holds 65535 the
energy is 65535*29200/20 = 95681100. -/
theorem C14_capacity_energy_decode_witness :
    (bq27x00_battery_energy (i2c_env false 100 0)
      ⟨BQ27000, bq27x00_reg_cache.zero, 0, 0, none, 0, some bq27x00_fw_g3_regs, 0x0324, 0⟩
      ⟨⟨true, 2, regfile_of [(0x22, 65535)]⟩, [], 0, 0, false, 0⟩).val = some 95681100 := by
  have g := (C14_capacity_energy_decode (i2c_env false 100 0)
      ⟨BQ27000, bq27x00_reg_cache.zero, 0, 0, none, 0, some bq27x00_fw_g3_regs, 0x0324, 0⟩
      ⟨⟨true, 2, regfile_of [(0x22, 65535)]⟩, [], 0, 0, false, 0⟩ 65535 (by decide)
      (by decide)).2.2.2.1 (by decide)
  rw [g.2.1]
  decide

/-! ## Negative transport codes in the live reads -/

/-- C17 (as the code has it): on every device state with non-negative cached FLAGS, if the
transport read behind VoltageNow, EnergyNow or ChargeNow returns a negative code `e`, the
property read fails with exactly `e` and stores no value; CurrentNow on Gen2 has no such
check (it is compiled out): when its transport read returns a negative `e` the property read
succeeds and stores `(s16)e * 1000`, which is `e * 1000` for `e` from -32768 on. -/
theorem C17_negative_codes (env : Env σ) (di : bq27x00_device_info) (w : World σ) (e : Int)
    (he : e < 0) (hf : 0 ≤ di.cache.flags) :
    ((bq27x00_read env di w BQ27x00_REG_VOLT false).1 = e →
      (bq27x00_property_switch env POWER_SUPPLY_PROP_VOLTAGE_NOW di w).ret = e ∧
      (bq27x00_property_switch env POWER_SUPPLY_PROP_VOLTAGE_NOW di w).val = none) ∧
    ((bq27x00_read env di w BQ27x00_REG_AE false).1 = e →
      (bq27x00_property_switch env POWER_SUPPLY_PROP_ENERGY_NOW di w).ret = e ∧
      (bq27x00_property_switch env POWER_SUPPLY_PROP_ENERGY_NOW di w).val = none) ∧
    ((bq27x00_read env di w BQ27x00_REG_NAC false).1 = e →
      (bq27x00_property_switch env POWER_SUPPLY_PROP_CHARGE_NOW di w).ret = e ∧
      (bq27x00_property_switch env POWER_SUPPLY_PROP_CHARGE_NOW di w).val = none) ∧
    (di.chip = BQ27500 → (bq27x00_read env di w BQ27x00_REG_AI false).1 = e →
      (bq27x00_property_switch env POWER_SUPPLY_PROP_CURRENT_NOW di w).ret = 0 ∧
      (bq27x00_property_switch env POWER_SUPPLY_PROP_CURRENT_NOW di w).val =
        some (c_mul (s16 e) 1000) ∧
      (-32768 ≤ e →
        (bq27x00_property_switch env POWER_SUPPLY_PROP_CURRENT_NOW di w).val =
          some (e * 1000))) := by
  have hn : ¬ (di.cache.flags < 0) := Int.not_lt.mpr hf
  refine ⟨?_, ?_, ?_, ?_⟩
  · intro hr
    simp [bq27x00_property_switch, hn, bq27x00_battery_voltage, hr, he]
  · intro hr
    simp [bq27x00_property_switch, hn, bq27x00_battery_energy, hr, he]
  · intro hr
    simp [bq27x00_property_switch, hn, bq27x00_battery_read_nac, bq27x00_battery_read_charge,
      bq27x00_simple_value, hr, he]
  · intro hc hr
    have h1 : (bq27x00_property_switch env POWER_SUPPLY_PROP_CURRENT_NOW di w).val =
        some (c_mul (s16 e) 1000) := by
      simp [bq27x00_property_switch, hn, bq27x00_battery_current, hc, hr]
    refine ⟨?_, h1, ?_⟩
    · simp [bq27x00_property_switch, hn, bq27x00_battery_current, hc]
    · intro hlo
      rw [h1]
      congr 1
      have hs : s16 e = e := by
        unfold s16
        omega
      rw [hs]
      unfold c_mul
      exact wrap32_of_range _ (by omega) (by omega)

/-- C17 on a Gen2 device with cached FLAGS 0 over an I2C bus whose transfers return -5:
VoltageNow fails with -5 and stores nothing. -/
theorem C17_negative_codes_witness :
    (bq27x00_property_switch (i2c_env false 100 0) POWER_SUPPLY_PROP_VOLTAGE_NOW s1_di
      ⟨⟨true, -5, fun _ => 0⟩, [], 0, 0, false, 0⟩).ret = -5 ∧
    (bq27x00_property_switch (i2c_env false 100 0) POWER_SUPPLY_PROP_VOLTAGE_NOW s1_di
      ⟨⟨true, -5, fun _ => 0⟩, [], 0, 0, false, 0⟩).val = none :=
  (C17_negative_codes (i2c_env false 100 0) s1_di
    ⟨⟨true, -5, fun _ => 0⟩, [], 0, 0, false, 0⟩ (-5) (by decide) (by decide)).1 (by decide)

/-- C17 as stated fails for CurrentNow on Gen2: with cached FLAGS 0 and an I2C bus whose
transfers return -5, the CurrentNow read returns 0 (success) and stores -5000 instead of
failing with -5. -/
theorem C17_gen2_current_counterexample :
    s1_di.chip = BQ27500 ∧ (0 : Int) ≤ s1_di.cache.flags ∧
    (bq27x00_read (i2c_env false 100 0) s1_di ⟨⟨true, -5, fun _ => 0⟩, [], 0, 0, false, 0⟩
      BQ27x00_REG_AI false).1 = -5 ∧
    (bq27x00_battery_get_property (i2c_env false 100 0) 0 POWER_SUPPLY_PROP_CURRENT_NOW s1_di
      ⟨⟨true, -5, fun _ => 0⟩, [], 0, 0, false, 0⟩).ret = 0 ∧
    (bq27x00_battery_get_property (i2c_env false 100 0) 0 POWER_SUPPLY_PROP_CURRENT_NOW s1_di
      ⟨⟨true, -5, fun _ => 0⟩, [], 0, 0, false, 0⟩).val = some (-5000) := by
  refine ⟨by decide, by decide, by decide, by decide, by decide⟩

/-! ## Stale Gen1 current -/

theorem gen1_current_val (env : Env σ) (di : bq27x00_device_info) (w : World σ)
    (hc : di.chip = BQ27000) :
    (bq27x00_battery_current env di w).val =
      some (c_div (c_mul (if c_bit di.cache.flags 7 then c_neg di.cache.current_now
                          else di.cache.current_now) 3570) 20) := by
  have hne : ¬ (di.chip = BQ27500) := by rw [hc]; decide
  simp [bq27x00_battery_current, hne, BQ27000_FLAG_CHGS, BQ27000_RS]

/-- C18: in every refresh whose newly read snapshot agrees with the cached one on the nine
compared fields, the whole cache, `current_now` included, is left as it was, whatever raw
current was just read; on Gen1 the CurrentNow decoder therefore gives after the refresh the
value it gave before it, computed from the old cached raw current. And a refresh that changes
the cached `current_now` is one whose new snapshot differs from the cached one in some
compared field. -/
theorem C18_stale_gen1_current (env : Env σ) (now : Nat) (di : bq27x00_device_info)
    (w : World σ) :
    (((bq27x00_update_snapshot env di w).1.temperature = di.cache.temperature ∧
      (bq27x00_update_snapshot env di w).1.internal_temp = di.cache.internal_temp ∧
      (bq27x00_update_snapshot env di w).1.time_to_empty = di.cache.time_to_empty ∧
      (bq27x00_update_snapshot env di w).1.time_to_empty_avg = di.cache.time_to_empty_avg ∧
      (bq27x00_update_snapshot env di w).1.time_to_full = di.cache.time_to_full ∧
      (bq27x00_update_snapshot env di w).1.charge_full = di.cache.charge_full ∧
      (bq27x00_update_snapshot env di w).1.cycle_count = di.cache.cycle_count ∧
      (bq27x00_update_snapshot env di w).1.capacity = di.cache.capacity ∧
      (bq27x00_update_snapshot env di w).1.flags = di.cache.flags) →
      (bq27x00_update env now di w).1.cache = di.cache ∧
      (bq27x00_update env now di w).1.cache.current_now = di.cache.current_now ∧
      (di.chip = BQ27000 →
        (bq27x00_battery_current env (bq27x00_update env now di w).1
          (bq27x00_update env now di w).2).val = (bq27x00_battery_current env di w).val ∧
        (bq27x00_battery_current env (bq27x00_update env now di w).1
          (bq27x00_update env now di w).2).val =
          some (c_div (c_mul (if c_bit di.cache.flags 7 then c_neg di.cache.current_now
                              else di.cache.current_now) 3570) 20))) ∧
    ((bq27x00_update env now di w).1.cache.current_now ≠ di.cache.current_now →
      ((bq27x00_update_snapshot env di w).1.temperature ≠ di.cache.temperature ∨
       (bq27x00_update_snapshot env di w).1.internal_temp ≠ di.cache.internal_temp ∨
       (bq27x00_update_snapshot env di w).1.time_to_empty ≠ di.cache.time_to_empty ∨
       (bq27x00_update_snapshot env di w).1.time_to_empty_avg ≠ di.cache.time_to_empty_avg ∨
       (bq27x00_update_snapshot env di w).1.time_to_full ≠ di.cache.time_to_full ∨
       (bq27x00_update_snapshot env di w).1.charge_full ≠ di.cache.charge_full ∨
       (bq27x00_update_snapshot env di w).1.cycle_count ≠ di.cache.cycle_count ∨
       (bq27x00_update_snapshot env di w).1.capacity ≠ di.cache.capacity ∨
       (bq27x00_update_snapshot env di w).1.flags ≠ di.cache.flags)) := by
  have hu := update_unfold env now di w
  have hchip := update_chip env now di w
  constructor
  · intro h
    have hcache := (hu.1 ((compared_eq_iff _ _).2 h)).2
    refine ⟨hcache, by rw [hcache], ?_⟩
    intro hc
    have e1 := gen1_current_val env (bq27x00_update env now di w).1
      (bq27x00_update env now di w).2 (by rw [hchip, hc])
    have e2 := gen1_current_val env di w hc
    rw [hcache] at e1
    exact ⟨by rw [e1, e2], e1⟩
  · intro hne
    by_contra hcon
    apply hne
    have hall : (bq27x00_update_snapshot env di w).1.compared = di.cache.compared := by
      rw [compared_eq_iff]
      refine ⟨?_, ?_, ?_, ?_, ?_, ?_, ?_, ?_, ?_⟩ <;> (by_contra hx; exact hcon (by tauto))
    rw [(hu.1 hall).2]

/-- C18 on a Gen1 device over I2C whose chip now holds CURRENT_AVG = 100 while the cache holds
raw current 7 and agrees with the chip elsewhere: after the refresh CurrentNow is still
7*3570/20 = 1249, not 100*3570/20 = 17850. -/
theorem C18_stale_gen1_current_witness :
    (bq27x00_update_snapshot (i2c_env false 100 0)
      ⟨BQ27000, ⟨0, 0, 0, 0, 0, 0, 0, 0, 0, 7⟩, 0, 0, none, 0, some bq27x00_fw_g3_regs,
        0x0324, 0⟩ ⟨⟨true, 2, regfile_of [(0x14, 100)]⟩, [], 0, 0, false, 0⟩).1.current_now
      = 100 ∧
    (bq27x00_battery_current (i2c_env false 100 0)
      (bq27x00_update (i2c_env false 100 0) 0
        ⟨BQ27000, ⟨0, 0, 0, 0, 0, 0, 0, 0, 0, 7⟩, 0, 0, none, 0, some bq27x00_fw_g3_regs,
          0x0324, 0⟩ ⟨⟨true, 2, regfile_of [(0x14, 100)]⟩, [], 0, 0, false, 0⟩).1
      (bq27x00_update (i2c_env false 100 0) 0
        ⟨BQ27000, ⟨0, 0, 0, 0, 0, 0, 0, 0, 0, 7⟩, 0, 0, none, 0, some bq27x00_fw_g3_regs,
          0x0324, 0⟩ ⟨⟨true, 2, regfile_of [(0x14, 100)]⟩, [], 0, 0, false, 0⟩).2).val
      = some 1249 := by
  have g := ((C18_stale_gen1_current (i2c_env false 100 0) 0
      ⟨BQ27000, ⟨0, 0, 0, 0, 0, 0, 0, 0, 0, 7⟩, 0, 0, none, 0, some bq27x00_fw_g3_regs,
        0x0324, 0⟩ ⟨⟨true, 2, regfile_of [(0x14, 100)]⟩, [], 0, 0, false, 0⟩).1
      (by decide)).2.2 rfl
  refine ⟨by decide, ?_⟩
  rw [g.2]
  decide

/-! ## Time decode -/

theorem read_time_cases (env : Env σ) (di : bq27x00_device_info) (w : World σ)
    (reg : bq27x00_reg_index) :
    ((bq27x00_read env di w reg false).1 < 0 →
      (bq27x00_battery_read_time env di w reg).1 = (bq27x00_read env di w reg false).1) ∧
    ((bq27x00_read env di w reg false).1 = 65535 →
      (bq27x00_battery_read_time env di w reg).1 = - ENODATA) ∧
    (0 ≤ (bq27x00_read env di w reg false).1 → (bq27x00_read env di w reg false).1 < 65535 →
      (bq27x00_battery_read_time env di w reg).1 = (bq27x00_read env di w reg false).1 * 60)
    := by
  refine ⟨?_, ?_, ?_⟩
  · intro h
    simp [bq27x00_battery_read_time, h]
  · intro h
    simp [bq27x00_battery_read_time, h]
  · intro h0 h1
    have hn : ¬ ((bq27x00_read env di w reg false).1 < 0) := Int.not_lt.mpr h0
    have hne : ¬ ((bq27x00_read env di w reg false).1 = 65535) := by omega
    simp only [bq27x00_battery_read_time, hn, hne, if_false, c_mul]
    exact wrap32_of_range _ (by omega) (by omega)

theorem simple_value_time_answer (env : Env σ) (di di2 : bq27x00_device_info)
    (w w2 : World σ) (reg : bq27x00_reg_index) :
    time_answer (bq27x00_read env di w reg false).1
      (bq27x00_simple_value (bq27x00_battery_read_time env di w reg).1 di2 w2) := by
  have hc := read_time_cases env di w reg
  refine ⟨?_, ?_, ?_⟩
  · intro h
    rw [hc.2.1 h]
    simp [bq27x00_simple_value, ENODATA]
  · intro h0 h1
    rw [hc.2.2 h0 h1]
    have hn : ¬ ((bq27x00_read env di w reg false).1 * 60 < 0) := by omega
    simp [bq27x00_simple_value, hn]
  · intro h
    rw [hc.1 h]
    simp [bq27x00_simple_value, h]

theorem snapshot_times (env : Env σ) (di : bq27x00_device_info) (w : World σ)
    (hf : 0 ≤ (bq27x00_update_snapshot env di w).1.flags) :
    (bq27x00_update_snapshot env di w).1.time_to_empty =
      (bq27x00_battery_read_time env di (bq27x00_update_world_tte env di w)
        BQ27x00_REG_TTE).1 ∧
    (bq27x00_update_snapshot env di w).1.time_to_empty_avg =
      (bq27x00_battery_read_time env di (bq27x00_update_world_ttes env di w)
        BQ27x00_REG_TTES).1 ∧
    (bq27x00_update_snapshot env di w).1.time_to_full =
      (bq27x00_battery_read_time env di (bq27x00_update_world_ttf env di w)
        BQ27x00_REG_TTF).1 := by
  rw [snapshot_flags] at hf
  simp only [bq27x00_update_snapshot, bq27x00_update_world_tte, bq27x00_update_world_ttes,
    bq27x00_update_world_ttf, ge_iff_le, hf, if_true]
  split_ifs <;> exact ⟨rfl, rfl, rfl⟩

theorem update_compared (env : Env σ) (now : Nat) (di : bq27x00_device_info) (w : World σ) :
    (bq27x00_update env now di w).1.cache.compared =
      (bq27x00_update_snapshot env di w).1.compared := by
  have hu := update_unfold env now di w
  by_cases h : (bq27x00_update_snapshot env di w).1.compared = di.cache.compared
  · rw [(hu.1 h).2, h]
  · rw [(hu.2 h).2]

/-- C12: `bq27x00_battery_read_time` returns the register read result `v` unchanged when
`v < 0`, `-ENODATA` when `v = 65535`, and `v*60` (no overflow) when `0 ≤ v < 65535`.
Consequently, after every refresh that leaves the cached FLAGS non-negative, each of the
TimeToEmptyNow, TimeToEmptyAvg and TimeToFullNow properties answers according to the raw
value that refresh read from its own register (TTE, TTES, TTF): it fails with no-data and
stores nothing when that raw value is 65535, and otherwise succeeds with raw*60 (or fails
with the transport's code when the raw read was negative). -/
theorem C12_time_decode (env : Env σ) (now : Nat) (di : bq27x00_device_info) (w : World σ)
    (reg : bq27x00_reg_index) :
    ((bq27x00_read env di w reg false).1 < 0 →
      (bq27x00_battery_read_time env di w reg).1 = (bq27x00_read env di w reg false).1) ∧
    ((bq27x00_read env di w reg false).1 = 65535 →
      (bq27x00_battery_read_time env di w reg).1 = - ENODATA) ∧
    (0 ≤ (bq27x00_read env di w reg false).1 → (bq27x00_read env di w reg false).1 < 65535 →
      (bq27x00_battery_read_time env di w reg).1 =
        (bq27x00_read env di w reg false).1 * 60) ∧
    (0 ≤ (bq27x00_update env now di w).1.cache.flags →
      time_answer
        (bq27x00_read env di (bq27x00_update_world_tte env di w) BQ27x00_REG_TTE false).1
        (bq27x00_property_switch env POWER_SUPPLY_PROP_TIME_TO_EMPTY_NOW
          (bq27x00_update env now di w).1 (bq27x00_update env now di w).2) ∧
      time_answer
        (bq27x00_read env di (bq27x00_update_world_ttes env di w) BQ27x00_REG_TTES false).1
        (bq27x00_property_switch env POWER_SUPPLY_PROP_TIME_TO_EMPTY_AVG
          (bq27x00_update env now di w).1 (bq27x00_update env now di w).2) ∧
      time_answer
        (bq27x00_read env di (bq27x00_update_world_ttf env di w) BQ27x00_REG_TTF false).1
        (bq27x00_property_switch env POWER_SUPPLY_PROP_TIME_TO_FULL_NOW
          (bq27x00_update env now di w).1 (bq27x00_update env now di w).2)) := by
  have hc := read_time_cases env di w reg
  refine ⟨hc.1, hc.2.1, hc.2.2, ?_⟩
  intro hf
  have hn : ¬ ((bq27x00_update env now di w).1.cache.flags < 0) := Int.not_lt.mpr hf
  have hcmp := (compared_eq_iff _ _).1 (update_compared env now di w)
  have hsf : 0 ≤ (bq27x00_update_snapshot env di w).1.flags := by
    rw [← hcmp.2.2.2.2.2.2.2.2]; exact hf
  have ht := snapshot_times env di w hsf
  refine ⟨?_, ?_, ?_⟩
  · have e : bq27x00_property_switch env POWER_SUPPLY_PROP_TIME_TO_EMPTY_NOW
        (bq27x00_update env now di w).1 (bq27x00_update env now di w).2 =
        bq27x00_simple_value (bq27x00_battery_read_time env di
          (bq27x00_update_world_tte env di w) BQ27x00_REG_TTE).1
          (bq27x00_update env now di w).1 (bq27x00_update env now di w).2 := by
      simp only [bq27x00_property_switch, hn, and_false, if_false]
      rw [hcmp.2.2.1, ht.1]
    rw [e]
    exact simple_value_time_answer env di _ _ _ _
  · have e : bq27x00_property_switch env POWER_SUPPLY_PROP_TIME_TO_EMPTY_AVG
        (bq27x00_update env now di w).1 (bq27x00_update env now di w).2 =
        bq27x00_simple_value (bq27x00_battery_read_time env di
          (bq27x00_update_world_ttes env di w) BQ27x00_REG_TTES).1
          (bq27x00_update env now di w).1 (bq27x00_update env now di w).2 := by
      simp only [bq27x00_property_switch, hn, and_false, if_false]
      rw [hcmp.2.2.2.1, ht.2.1]
    rw [e]
    exact simple_value_time_answer env di _ _ _ _
  · have e : bq27x00_property_switch env POWER_SUPPLY_PROP_TIME_TO_FULL_NOW
        (bq27x00_update env now di w).1 (bq27x00_update env now di w).2 =
        bq27x00_simple_value (bq27x00_battery_read_time env di
          (bq27x00_update_world_ttf env di w) BQ27x00_REG_TTF).1
          (bq27x00_update env now di w).1 (bq27x00_update env now di w).2 := by
      simp only [bq27x00_property_switch, hn, and_false, if_false]
      rw [hcmp.2.2.2.2.1, ht.2.2]
    rw [e]
    exact simple_value_time_answer env di _ _ _ _

/-- C12 on a Gen1 chip over I2C whose TTE register holds 65535 and whose TTES register holds
10: after a refresh TimeToEmptyNow fails with -ENODATA and stores nothing, while
TimeToEmptyAvg succeeds with 600. -/
theorem C12_time_decode_witness :
    (bq27x00_property_switch (i2c_env false 100 0) POWER_SUPPLY_PROP_TIME_TO_EMPTY_NOW
      (bq27x00_update (i2c_env false 100 0) 0
        ⟨BQ27000, bq27x00_reg_cache.zero, 0, 0, none, 0, some bq27x00_fw_g3_regs, 0x0324, 0⟩
        ⟨⟨true, 2, regfile_of [(0x16, 65535), (0x1c, 10)]⟩, [], 0, 0, false, 0⟩).1
      (bq27x00_update (i2c_env false 100 0) 0
        ⟨BQ27000, bq27x00_reg_cache.zero, 0, 0, none, 0, some bq27x00_fw_g3_regs, 0x0324, 0⟩
        ⟨⟨true, 2, regfile_of [(0x16, 65535), (0x1c, 10)]⟩, [], 0, 0, false, 0⟩).2).ret
      = - ENODATA ∧
    (bq27x00_property_switch (i2c_env false 100 0) POWER_SUPPLY_PROP_TIME_TO_EMPTY_AVG
      (bq27x00_update (i2c_env false 100 0) 0
        ⟨BQ27000, bq27x00_reg_cache.zero, 0, 0, none, 0, some bq27x00_fw_g3_regs, 0x0324, 0⟩
        ⟨⟨true, 2, regfile_of [(0x16, 65535), (0x1c, 10)]⟩, [], 0, 0, false, 0⟩).1
      (bq27x00_update (i2c_env false 100 0) 0
        ⟨BQ27000, bq27x00_reg_cache.zero, 0, 0, none, 0, some bq27x00_fw_g3_regs, 0x0324, 0⟩
        ⟨⟨true, 2, regfile_of [(0x16, 65535), (0x1c, 10)]⟩, [], 0, 0, false, 0⟩).2).val
      = some (10 * 60) := by
  have g := (C12_time_decode (i2c_env false 100 0) 0
      ⟨BQ27000, bq27x00_reg_cache.zero, 0, 0, none, 0, some bq27x00_fw_g3_regs, 0x0324, 0⟩
      ⟨⟨true, 2, regfile_of [(0x16, 65535), (0x1c, 10)]⟩, [], 0, 0, false, 0⟩
      BQ27x00_REG_TTE).2.2.2 (by decide)
  exact ⟨(g.1.1 (by decide)).1, (g.2.1.2.1 (by decide) (by decide)).2⟩

/-! ## Scenario S4: dead bus -/

theorem dead_read (env : Env σ) (hdead : ∀ s reg single, (env.read s reg single).1 = -5)
    (di : bq27x00_device_info) (w : World σ) (regs : List Nat) (hr : di.regs = some regs)
    (i : bq27x00_reg_index) (single : Bool)
    (hi : regs.getD i.toNat 0 ≠ INVALID_REG_ADDR) :
    (bq27x00_read env di w i single).1 = -5 := by
  simp only [bq27x00_read, hr, hi, if_false]
  exact hdead _ _ _

theorem dead_snapshot (env : Env σ) (hdead : ∀ s reg single, (env.read s reg single).1 = -5)
    (di : bq27x00_device_info) (w : World σ) (regs : List Nat) (hr : di.regs = some regs)
    (ht : regs = bq27x00_fw_g3_regs ∨ regs = bq27x00_fw_l1_regs) :
    (bq27x00_update_snapshot env di w).1 = dead_cache ∧
    (bq27x00_update_snapshot env di w).2.1 = di := by
  have hfl : (bq27x00_read env di w BQ27x00_REG_FLAGS (decide (di.chip = BQ27500))).1 = -5 := by
    apply dead_read env hdead di w regs hr
    rcases ht with h | h <;> rw [h] <;> decide
  simp only [bq27x00_update_snapshot, hfl]
  exact ⟨rfl, rfl⟩

theorem dead_update (env : Env σ) (hdead : ∀ s reg single, (env.read s reg single).1 = -5)
    (now : Nat) (di : bq27x00_device_info) (w : World σ) (regs : List Nat)
    (hr : di.regs = some regs)
    (ht : regs = bq27x00_fw_g3_regs ∨ regs = bq27x00_fw_l1_regs) :
    (bq27x00_update env now di w).1.regs = some regs ∧
    (di.cache = dead_cache →
      (bq27x00_update env now di w).1.cache = dead_cache ∧
      (bq27x00_update env now di w).2.changed = w.changed) ∧
    (di.cache.compared ≠ dead_cache.compared →
      (bq27x00_update env now di w).1.cache = dead_cache ∧
      (bq27x00_update env now di w).2.changed = w.changed + 1) := by
  have hs := dead_snapshot env hdead di w regs hr ht
  have hu := update_unfold env now di w
  rw [hs.1] at hu
  have hregs : (bq27x00_update env now di w).1.regs = some regs := by
    have h1 : (bq27x00_update_snapshot env di w).2.1.regs = some regs := by rw [hs.2, hr]
    simp only [bq27x00_update]
    split_ifs <;> exact h1
  refine ⟨hregs, ?_, ?_⟩
  · intro hd
    have h := hu.1 (by rw [hd])
    exact ⟨by rw [h.2, hd], h.1⟩
  · intro hd
    have h := hu.2 (fun e => hd e.symm)
    exact ⟨h.2, h.1⟩

theorem dead_get_property (env : Env σ)
    (hdead : ∀ s reg single, (env.read s reg single).1 = -5)
    (now : Nat) (psp : power_supply_property) (di : bq27x00_device_info) (w : World σ)
    (regs : List Nat) (hr : di.regs = some regs)
    (ht : regs = bq27x00_fw_g3_regs ∨ regs = bq27x00_fw_l1_regs)
    (hc : di.cache = dead_cache) :
    (bq27x00_battery_get_property env now psp di w).di.regs = some regs ∧
    (bq27x00_battery_get_property env now psp di w).di.cache = dead_cache ∧
    (bq27x00_battery_get_property env now psp di w).w.changed = w.changed ∧
    (psp = POWER_SUPPLY_PROP_PRESENT →
      (bq27x00_battery_get_property env now psp di w).ret = 0 ∧
      (bq27x00_battery_get_property env now psp di w).val = some 0) ∧
    (psp ≠ POWER_SUPPLY_PROP_PRESENT →
      (bq27x00_battery_get_property env now psp di w).ret = - ENODEV ∧
      (bq27x00_battery_get_property env now psp di w).val = none) := by
  have hu := dead_update env hdead now di w regs hr ht
  have hs : (bq27x00_refresh_if_stale env now di w).1.regs = some regs ∧
      (bq27x00_refresh_if_stale env now di w).1.cache = dead_cache ∧
      (bq27x00_refresh_if_stale env now di w).2.changed = w.changed := by
    simp only [bq27x00_refresh_if_stale, bq27x00_battery_poll]
    split_ifs
    · exact ⟨hu.1, (hu.2.1 hc).1, (hu.2.1 hc).2⟩
    · exact ⟨hr, hc, rfl⟩
  have hfl : (bq27x00_refresh_if_stale env now di w).1.cache.flags < 0 := by
    rw [hs.2.1]; decide
  have hdf : dead_cache.flags < 0 := by decide
  by_cases hp : psp = POWER_SUPPLY_PROP_PRESENT
  · subst hp
    simp [bq27x00_battery_get_property, bq27x00_property_switch, hfl, hdf, hs.1, hs.2.1,
      hs.2.2]
  · simp [bq27x00_battery_get_property, bq27x00_property_switch, hfl, hdf, hp, hs.1, hs.2.1,
      hs.2.2]

theorem dead_run (env : Env σ) (hdead : ∀ s reg single, (env.read s reg single).1 = -5)
    (regs : List Nat) (ht : regs = bq27x00_fw_g3_regs ∨ regs = bq27x00_fw_l1_regs)
    (ops : List driver_op) :
    ∀ s : bq27x00_device_info × World σ, s.1.regs = some regs → s.1.cache = dead_cache →
      (driver_run env s ops).1.regs = some regs ∧
      (driver_run env s ops).1.cache = dead_cache ∧
      (driver_run env s ops).2.changed = s.2.changed := by
  induction ops with
  | nil => intro s hr hc; exact ⟨hr, hc, rfl⟩
  | cons op rest ih =>
    intro s hr hc
    have hstep : (driver_step env s op).1.regs = some regs ∧
        (driver_step env s op).1.cache = dead_cache ∧
        (driver_step env s op).2.changed = s.2.changed := by
      cases op with
      | refresh now =>
        have hu := dead_update env hdead now s.1 s.2 regs hr ht
        simp only [driver_step, bq27x00_battery_poll]
        exact ⟨hu.1, (hu.2.1 hc).1, (hu.2.1 hc).2⟩
      | read psp now =>
        have hg := dead_get_property env hdead now psp s.1 s.2 regs hr ht hc
        simp only [driver_step]
        exact ⟨hg.1, hg.2.1, hg.2.2.1⟩
    have h2 := ih (driver_step env s op) hstep.1 hstep.2.1
    simp only [driver_run, List.foldl_cons] at h2 ⊢
    exact ⟨h2.1, h2.2.1, by rw [h2.2.2, hstep.2.2]⟩

theorem dead_init (env : Env σ) (hdead : ∀ s reg single, (env.read s reg single).1 = -5)
    (hreg : env.register_ret = 0) (now : Nat) (chip : bq27x00_chip) (regs : List Nat)
    (tr : Option (Int → Int)) (fw df : Int) (w : World σ)
    (ht : regs = bq27x00_fw_g3_regs ∨ regs = bq27x00_fw_l1_regs) :
    (bq27x00_powersupply_init env now (bq27x00_probe_di chip regs tr fw df) w).1 = 0 ∧
    (bq27x00_probed env now chip regs tr fw df w).1.regs = some regs ∧
    (bq27x00_probed env now chip regs tr fw df w).1.cache = dead_cache ∧
    (bq27x00_probed env now chip regs tr fw df w).2.changed = w.changed + 1 := by
  have ht1 : (bq27x00_read env (bq27x00_probe_di chip regs tr fw df) w BQ27x00_REG_TEMP
      false).1 = -5 := by
    apply dead_read env hdead _ w regs rfl
    rcases ht with h | h <;> rw [h] <;> decide
  have hne : ¬ (env.register_ret ≠ 0) := by rw [hreg]; simp
  simp only [bq27x00_probed, bq27x00_powersupply_init, if_neg hne, ht1]
  have key : ∀ (di2 : bq27x00_device_info) (w2 : World σ), di2.regs = some regs →
      di2.cache.temperature = -5 → w2.changed = w.changed →
      (bq27x00_update env now di2 w2).1.regs = some regs ∧
      (bq27x00_update env now di2 w2).1.cache = dead_cache ∧
      (bq27x00_update env now di2 w2).2.changed = w.changed + 1 := by
    intro di2 w2 hr htemp hw
    have hu := dead_update env hdead now di2 w2 regs hr ht
    have hd : di2.cache.compared ≠ dead_cache.compared := by
      intro e
      have e1 := ((compared_eq_iff _ _).1 e).1
      rw [htemp] at e1
      exact absurd e1 (by decide)
    exact ⟨hu.1, (hu.2.2 hd).1, by rw [(hu.2.2 hd).2, hw]⟩
  refine ⟨trivial, ?_, ?_, ?_⟩
  · refine (key _ _ ?_ ?_ ?_).1
    · rfl
    · rfl
    · rw [read_changed, read_changed]
  · refine (key _ _ ?_ ?_ ?_).2.1
    · rfl
    · rfl
    · rw [read_changed, read_changed]
  · refine (key _ _ ?_ ?_ ?_).2.2
    · rfl
    · rfl
    · rw [read_changed, read_changed]

/-- C15 (as the code has it): a device probed with a register map installed (G3 or L1, either
chip) over a transport on which every read returns -5 registers successfully; its initial
refresh emits exactly one changed event (the cache goes from the primed state to
FLAGS = -5); after that, across any sequence of refreshes and property reads, no further
changed event is emitted, the Present property is 0, and every other property read fails
with `-ENODEV` and stores nothing. -/
theorem C15_bus_dead (env : Env σ) (chip : bq27x00_chip) (regs : List Nat)
    (tr : Option (Int → Int)) (fw df : Int) (w : World σ) (now0 now : Nat)
    (ops : List driver_op) (psp : power_supply_property)
    (hdead : ∀ s reg single, (env.read s reg single).1 = -5)
    (hreg : env.register_ret = 0)
    (ht : regs = bq27x00_fw_g3_regs ∨ regs = bq27x00_fw_l1_regs) :
    (bq27x00_powersupply_init env now0 (bq27x00_probe_di chip regs tr fw df) w).1 = 0 ∧
    (bq27x00_probed env now0 chip regs tr fw df w).2.changed = w.changed + 1 ∧
    (driver_run env (bq27x00_probed env now0 chip regs tr fw df w) ops).2.changed =
      w.changed + 1 ∧
    (bq27x00_battery_get_property env now POWER_SUPPLY_PROP_PRESENT
      (driver_run env (bq27x00_probed env now0 chip regs tr fw df w) ops).1
      (driver_run env (bq27x00_probed env now0 chip regs tr fw df w) ops).2).ret = 0 ∧
    (bq27x00_battery_get_property env now POWER_SUPPLY_PROP_PRESENT
      (driver_run env (bq27x00_probed env now0 chip regs tr fw df w) ops).1
      (driver_run env (bq27x00_probed env now0 chip regs tr fw df w) ops).2).val = some 0 ∧
    (psp ≠ POWER_SUPPLY_PROP_PRESENT →
      (bq27x00_battery_get_property env now psp
        (driver_run env (bq27x00_probed env now0 chip regs tr fw df w) ops).1
        (driver_run env (bq27x00_probed env now0 chip regs tr fw df w) ops).2).ret
        = - ENODEV ∧
      (bq27x00_battery_get_property env now psp
        (driver_run env (bq27x00_probed env now0 chip regs tr fw df w) ops).1
        (driver_run env (bq27x00_probed env now0 chip regs tr fw df w) ops).2).val = none) ∧
    (bq27x00_battery_get_property env now psp
      (driver_run env (bq27x00_probed env now0 chip regs tr fw df w) ops).1
      (driver_run env (bq27x00_probed env now0 chip regs tr fw df w) ops).2).w.changed =
      w.changed + 1 := by
  have hi := dead_init env hdead hreg now0 chip regs tr fw df w ht
  have hrun := dead_run env hdead regs ht ops (bq27x00_probed env now0 chip regs tr fw df w)
    hi.2.1 hi.2.2.1
  have hp := dead_get_property env hdead now POWER_SUPPLY_PROP_PRESENT _ 
    (driver_run env (bq27x00_probed env now0 chip regs tr fw df w) ops).2 regs hrun.1 ht
    hrun.2.1
  have hq := dead_get_property env hdead now psp _ 
    (driver_run env (bq27x00_probed env now0 chip regs tr fw df w) ops).2 regs hrun.1 ht
    hrun.2.1
  refine ⟨hi.1, hi.2.2.2, ?_, (hp.2.2.2.1 rfl).1, (hp.2.2.2.1 rfl).2, hq.2.2.2.2, ?_⟩
  · rw [hrun.2.2, hi.2.2.2]
  · rw [hq.2.2.1, hrun.2.2, hi.2.2.2]

/-- Scenario S4 on a Gen2 device with the L1 map: after the probe, a refresh, a Temp read and
another refresh, a Capacity read fails with `-ENODEV` and stores nothing. -/
theorem C15_bus_dead_witness :
    (bq27x00_battery_get_property dead_env 5000 POWER_SUPPLY_PROP_CAPACITY
      (driver_run dead_env
        (bq27x00_probed dead_env 0 BQ27500 bq27x00_fw_l1_regs none 0x0600 0
          ⟨(), [], 0, 0, false, 0⟩)
        [driver_op.refresh 1000, driver_op.read POWER_SUPPLY_PROP_TEMP 2000,
          driver_op.refresh 3000]).1
      (driver_run dead_env
        (bq27x00_probed dead_env 0 BQ27500 bq27x00_fw_l1_regs none 0x0600 0
          ⟨(), [], 0, 0, false, 0⟩)
        [driver_op.refresh 1000, driver_op.read POWER_SUPPLY_PROP_TEMP 2000,
          driver_op.refresh 3000]).2).ret = - ENODEV ∧
    (bq27x00_battery_get_property dead_env 5000 POWER_SUPPLY_PROP_CAPACITY
      (driver_run dead_env
        (bq27x00_probed dead_env 0 BQ27500 bq27x00_fw_l1_regs none 0x0600 0
          ⟨(), [], 0, 0, false, 0⟩)
        [driver_op.refresh 1000, driver_op.read POWER_SUPPLY_PROP_TEMP 2000,
          driver_op.refresh 3000]).1
      (driver_run dead_env
        (bq27x00_probed dead_env 0 BQ27500 bq27x00_fw_l1_regs none 0x0600 0
          ⟨(), [], 0, 0, false, 0⟩)
        [driver_op.refresh 1000, driver_op.read POWER_SUPPLY_PROP_TEMP 2000,
          driver_op.refresh 3000]).2).val = none :=
  (C15_bus_dead dead_env BQ27500 bq27x00_fw_l1_regs none 0x0600 0 ⟨(), [], 0, 0, false, 0⟩
    0 5000 [driver_op.refresh 1000, driver_op.read POWER_SUPPLY_PROP_TEMP 2000,
      driver_op.refresh 3000] POWER_SUPPLY_PROP_CAPACITY (fun _ _ _ => rfl) rfl
    (Or.inr rfl)).2.2.2.2.2.1 (by decide)

/-- C15 as stated fails: for a Gen2 device probed over an I2C bus whose transfers all return
-5, the initial refresh run by `bq27x00_powersupply_init` does emit a changed event (the
count goes from 0 to 1), since the FLAGS it caches, -5, differs from the zero the probe left
there. -/
theorem C15_initial_event_counterexample :
    (bq27x00_probed (i2c_env false 100 0) 0 BQ27500 bq27x00_fw_l1_regs none 0x0600 0
      ⟨⟨true, -5, fun _ => 0⟩, [], 0, 0, false, 0⟩).2.changed = 1 ∧
    (bq27x00_probed (i2c_env false 100 0) 0 BQ27500 bq27x00_fw_l1_regs none 0x0600 0
      ⟨⟨true, -5, fun _ => 0⟩, [], 0, 0, false, 0⟩).1.cache.flags = -5 ∧
    (bq27x00_probed (i2c_env false 100 0) 0 BQ27500 bq27x00_fw_l1_regs none 0x0600 0
      ⟨⟨true, -5, fun _ => 0⟩, [], 0, 0, false, 0⟩).2.changed ≠ 0 := by
  refine ⟨by decide, by decide, by decide⟩

/-! ## Design capacity is read until it is known -/

theorem read_reads (env : Env σ) (di : bq27x00_device_info) (w : World σ)
    (i : bq27x00_reg_index) (single : Bool) :
    (bq27x00_read env di w i single).2.reads = w.reads ++ bq27x00_read_trace di i single := by
  unfold bq27x00_read bq27x00_read_trace
  split
  · simp
  · split <;> simp

theorem read_rsoc_reads (env : Env σ) (di : bq27x00_device_info) (w : World σ) :
    (bq27x00_battery_read_rsoc env di w).2.reads =
      w.reads ++ (if di.chip = BQ27500 then bq27x00_read_trace di BQ27500_REG_SOC false
                  else bq27x00_read_trace di BQ27000_REG_RSOC true) := by
  unfold bq27x00_battery_read_rsoc
  split <;> exact read_reads _ _ _ _ _

theorem read_time_reads (env : Env σ) (di : bq27x00_device_info) (w : World σ)
    (i : bq27x00_reg_index) :
    (bq27x00_battery_read_time env di w i).2.reads =
      w.reads ++ bq27x00_read_trace di i false := by
  simp only [bq27x00_battery_read_time]
  split_ifs <;> exact read_reads _ _ _ _ _

theorem read_lmd_reads (env : Env σ) (di : bq27x00_device_info) (w : World σ) :
    (bq27x00_battery_read_lmd env di w).2.reads =
      w.reads ++ bq27x00_read_trace di BQ27x00_REG_LMD false := by
  simp only [bq27x00_battery_read_lmd, bq27x00_battery_read_charge]
  split_ifs <;> exact read_reads _ _ _ _ _

theorem read_cyct_reads (env : Env σ) (di : bq27x00_device_info) (w : World σ) :
    (bq27x00_battery_read_cyct env di w).2.reads =
      w.reads ++ bq27x00_read_trace di BQ27x00_REG_CYCT false := by
  exact read_reads _ _ _ _ _

theorem read_ilmd_reads (env : Env σ) (di : bq27x00_device_info) (w : World σ) :
    (bq27x00_battery_read_ilmd env di w).2.reads =
      w.reads ++ bq27x00_read_trace di (bq27x00_design_reg di).1 (bq27x00_design_reg di).2
    := by
  simp only [bq27x00_battery_read_ilmd, bq27x00_design_reg]
  split_ifs <;> exact read_reads _ _ _ _ _

/-- The transport reads one refresh issues, in order: FLAGS, and when that read is not
negative the state of charge, TEMP, INT_TEMP, TTE, TTES, TTF, LMD, CYCT, on Gen1 the
current, and while `charge_design_full` is not positive the design capacity. -/
theorem snapshot_reads (env : Env σ) (di : bq27x00_device_info) (w : World σ) :
    (bq27x00_update_snapshot env di w).2.2.reads =
      w.reads ++ (bq27x00_read_trace di BQ27x00_REG_FLAGS (decide (di.chip = BQ27500)) ++
        (if 0 ≤ (bq27x00_update_snapshot env di w).1.flags then
          (if di.chip = BQ27500 then bq27x00_read_trace di BQ27500_REG_SOC false
           else bq27x00_read_trace di BQ27000_REG_RSOC true) ++
          bq27x00_read_trace di BQ27x00_REG_TEMP false ++
          bq27x00_read_trace di BQ27x00_REG_INT_TEMP false ++
          bq27x00_read_trace di BQ27x00_REG_TTE false ++
          bq27x00_read_trace di BQ27x00_REG_TTES false ++
          bq27x00_read_trace di BQ27x00_REG_TTF false ++
          bq27x00_read_trace di BQ27x00_REG_LMD false ++
          bq27x00_read_trace di BQ27x00_REG_CYCT false ++
          (if di.chip = BQ27500 then [] else bq27x00_read_trace di BQ27x00_REG_AI false) ++
          (if di.charge_design_full ≤ 0 then
            bq27x00_read_trace di (bq27x00_design_reg di).1 (bq27x00_design_reg di).2
           else [])
         else [])) := by
  rw [snapshot_flags]
  simp only [bq27x00_update_snapshot, ge_iff_le]
  split_ifs <;>
    simp_all [read_reads, read_rsoc_reads, read_time_reads, read_lmd_reads, read_cyct_reads,
      read_ilmd_reads]

theorem design_reads_append (di : bq27x00_device_info) (w w2 : World σ)
    (l : List (Nat × Bool)) (h : w2.reads = w.reads ++ l) :
    design_reads di w2 = design_reads di w +
      (l.filter (fun e => decide (e ∈ bq27x00_read_trace di (bq27x00_design_reg di).1
        (bq27x00_design_reg di).2))).length := by
  simp only [design_reads, h, List.filter_append, List.length_append]

theorem design_reads_congr (di di2 : bq27x00_device_info) (w : World σ)
    (hc : di2.chip = di.chip) (hr : di2.regs = di.regs) :
    design_reads di2 w = design_reads di w := by
  simp only [design_reads, bq27x00_design_reg, bq27x00_read_trace, hc, hr]

theorem snapshot_design_reads (env : Env σ) (di : bq27x00_device_info) (w : World σ)
    (hmap : di.regs = none ∨ di.regs = some bq27x00_fw_g3_regs ∨
      di.regs = some bq27x00_fw_l1_regs) :
    design_reads di (bq27x00_update_snapshot env di w).2.2 = design_reads di w +
      (if 0 ≤ (bq27x00_update_snapshot env di w).1.flags ∧ di.charge_design_full ≤ 0 ∧
          bq27x00_has_design_reg di = true
       then 1 else 0) := by
  rw [design_reads_append di w _ _ (snapshot_reads env di w)]
  congr 1
  by_cases hf : 0 ≤ (bq27x00_update_snapshot env di w).1.flags <;>
  by_cases hd : di.charge_design_full ≤ 0 <;>
  cases hc : di.chip <;>
  rcases hmap with h | h | h <;>
  simp [hf, hd, hc, h, bq27x00_read_trace, bq27x00_design_reg, bq27x00_has_design_reg,
    bq27x00_fw_g3_regs, bq27x00_fw_l1_regs, bq27x00_reg_index.toNat, INVALID_REG_ADDR,
    List.filter]

theorem update_snapshot_frame (env : Env σ) (now : Nat) (di : bq27x00_device_info)
    (w : World σ) :
    (bq27x00_update env now di w).2.reads = (bq27x00_update_snapshot env di w).2.2.reads ∧
    (bq27x00_update env now di w).1.charge_design_full =
      (bq27x00_update_snapshot env di w).2.1.charge_design_full ∧
    (bq27x00_update env now di w).1.regs = di.regs := by
  have hd := snapshot_di env di w
  have hregs : (bq27x00_update_snapshot env di w).2.1.regs = di.regs := by rw [hd]
  simp only [bq27x00_update]
  split_ifs <;> exact ⟨rfl, rfl, hregs⟩

theorem snapshot_design_full (env : Env σ) (di : bq27x00_device_info) (w : World σ) :
    ((bq27x00_update_snapshot env di w).1.flags < 0 →
      (bq27x00_update_snapshot env di w).2.1.charge_design_full = di.charge_design_full) ∧
    (0 < di.charge_design_full →
      (bq27x00_update_snapshot env di w).2.1.charge_design_full = di.charge_design_full) := by
  constructor
  · intro h
    rw [snapshot_flags] at h
    have hn : ¬ ((bq27x00_read env di w BQ27x00_REG_FLAGS (decide (di.chip = BQ27500))).1 ≥ 0)
      := by omega
    simp only [bq27x00_update_snapshot, hn, if_false]
  · intro h
    have hn : ¬ (di.charge_design_full ≤ 0) := by omega
    simp only [bq27x00_update_snapshot, hn, if_false]
    split_ifs <;> rfl

theorem refreshes_design (env : Env σ) (di0 : bq27x00_device_info)
    (hmap : di0.regs = none ∨ di0.regs = some bq27x00_fw_g3_regs ∨
      di0.regs = some bq27x00_fw_l1_regs) (times : List Nat) :
    ∀ s : bq27x00_device_info × World σ, s.1.regs = di0.regs → s.1.chip = di0.chip →
      0 < s.1.charge_design_full →
      (bq27x00_refreshes env s times).1.charge_design_full = s.1.charge_design_full ∧
      design_reads di0 (bq27x00_refreshes env s times).2 = design_reads di0 s.2 := by
  induction times with
  | nil => intro s _ _ _; exact ⟨rfl, rfl⟩
  | cons now rest ih =>
    intro s hr hc hpos
    have hf := update_snapshot_frame env now s.1 s.2
    have hcdf : (bq27x00_update env now s.1 s.2).1.charge_design_full =
        s.1.charge_design_full := by
      rw [hf.2.1]
      exact (snapshot_design_full env s.1 s.2).2 hpos
    have hreads : design_reads di0 (bq27x00_update env now s.1 s.2).2 = design_reads di0 s.2
        := by
      have e1 : design_reads di0 (bq27x00_update env now s.1 s.2).2 =
          design_reads di0 (bq27x00_update_snapshot env s.1 s.2).2.2 := by
        simp only [design_reads, hf.1]
      have hcg := fun (w : World σ) => design_reads_congr s.1 di0 w hc.symm hr.symm
      rw [e1, hcg, snapshot_design_reads env s.1 s.2 (by rw [hr]; exact hmap), ← hcg]
      have hn : ¬ (s.1.charge_design_full ≤ 0) := by omega
      simp [hn]
    have h2 := ih (bq27x00_update env now s.1 s.2) (by rw [hf.2.2, hr])
      (by rw [update_chip, hc]) (by rw [hcdf]; exact hpos)
    simp only [bq27x00_refreshes, List.foldl_cons] at h2 ⊢
    exact ⟨by rw [h2.1, hcdf], by rw [h2.2, hreads]⟩

/-- C16 (as the code has it): for a device whose register map is absent, the G3 table or the
L1 table, a refresh reads the design-capacity register exactly when its FLAGS read is
non-negative, `charge_design_full` is not yet positive and the map has that register, and
then reads it once; a refresh whose FLAGS read is negative, or that finds
`charge_design_full` positive, leaves `charge_design_full` unchanged. Hence, once
`charge_design_full` is positive, no refresh of any later sequence reads the design-capacity
register or changes `charge_design_full`, whatever the transport returns. -/
theorem C16_design_capacity_once (env : Env σ) (di : bq27x00_device_info) (w : World σ)
    (now : Nat) (times : List Nat)
    (hmap : di.regs = none ∨ di.regs = some bq27x00_fw_g3_regs ∨
      di.regs = some bq27x00_fw_l1_regs) :
    design_reads di (bq27x00_update env now di w).2 = design_reads di w +
      (if 0 ≤ (bq27x00_update env now di w).1.cache.flags ∧ di.charge_design_full ≤ 0 ∧
          bq27x00_has_design_reg di = true
       then 1 else 0) ∧
    ((bq27x00_update env now di w).1.cache.flags < 0 →
      (bq27x00_update env now di w).1.charge_design_full = di.charge_design_full) ∧
    (0 < di.charge_design_full →
      (bq27x00_update env now di w).1.charge_design_full = di.charge_design_full) ∧
    (0 < di.charge_design_full →
      (bq27x00_refreshes env (di, w) times).1.charge_design_full = di.charge_design_full ∧
      design_reads di (bq27x00_refreshes env (di, w) times).2 = design_reads di w) := by
  have hf := update_snapshot_frame env now di w
  have hfl : (bq27x00_update env now di w).1.cache.flags =
      (bq27x00_update_snapshot env di w).1.flags := by
    rw [update_flags, snapshot_flags]
  have hs := snapshot_design_full env di w
  refine ⟨?_, ?_, ?_, ?_⟩
  · have e1 : design_reads di (bq27x00_update env now di w).2 =
        design_reads di (bq27x00_update_snapshot env di w).2.2 := by
      simp only [design_reads, hf.1]
    rw [e1, hfl]
    exact snapshot_design_reads env di w hmap
  · intro h
    rw [hfl] at h
    rw [hf.2.1]
    exact hs.1 h
  · intro h
    rw [hf.2.1]
    exact hs.2 h
  · intro h
    exact refreshes_design env di hmap times (di, w) rfl rfl h

/-- C16 on the chip of scenario S1 with DCAP = 1500: the first refresh reads the design
capacity once, and with `charge_design_full` then known three more refreshes read it no
more and leave it at 1500000; and a Gen1 chip on the L1 map, which has no ILMD, makes no
design-capacity read in a refresh that succeeds. -/
theorem C16_design_capacity_once_witness :
    design_reads s1_di (bq27x00_update (i2c_env false 100 0) 0 s1_di
      ⟨⟨true, 2, regfile_of [(0x2E, 1500)]⟩, [], 0, 0, false, 0⟩).2 = 0 + 1 ∧
    (bq27x00_refreshes (i2c_env false 100 0)
      (bq27x00_update (i2c_env false 100 0) 0 s1_di
        ⟨⟨true, 2, regfile_of [(0x2E, 1500)]⟩, [], 0, 0, false, 0⟩)
      [10, 20, 30]).1.charge_design_full = 1500000 ∧
    design_reads s1_di (bq27x00_refreshes (i2c_env false 100 0)
      (bq27x00_update (i2c_env false 100 0) 0 s1_di
        ⟨⟨true, 2, regfile_of [(0x2E, 1500)]⟩, [], 0, 0, false, 0⟩)
      [10, 20, 30]).2 = 1 ∧
    design_reads
      ⟨BQ27000, bq27x00_reg_cache.zero, 0, 0, none, 0, some bq27x00_fw_l1_regs, 0x0600, 0⟩
      (bq27x00_update (i2c_env false 100 0) 0
        ⟨BQ27000, bq27x00_reg_cache.zero, 0, 0, none, 0, some bq27x00_fw_l1_regs, 0x0600, 0⟩
        ⟨⟨true, 2, fun _ => 0⟩, [], 0, 0, false, 0⟩).2 = 0 + 0 := by
  have g1 := (C16_design_capacity_once (i2c_env false 100 0) s1_di
      ⟨⟨true, 2, regfile_of [(0x2E, 1500)]⟩, [], 0, 0, false, 0⟩ 0 []
      (Or.inr (Or.inr rfl))).1
  have g2 := (C16_design_capacity_once (i2c_env false 100 0)
      (bq27x00_update (i2c_env false 100 0) 0 s1_di
        ⟨⟨true, 2, regfile_of [(0x2E, 1500)]⟩, [], 0, 0, false, 0⟩).1
      (bq27x00_update (i2c_env false 100 0) 0 s1_di
        ⟨⟨true, 2, regfile_of [(0x2E, 1500)]⟩, [], 0, 0, false, 0⟩).2
      0 [10, 20, 30] (Or.inr (Or.inr (by decide)))).2.2.2 (by decide)
  have g3 := (C16_design_capacity_once (i2c_env false 100 0)
      ⟨BQ27000, bq27x00_reg_cache.zero, 0, 0, none, 0, some bq27x00_fw_l1_regs, 0x0600, 0⟩
      ⟨⟨true, 2, fun _ => 0⟩, [], 0, 0, false, 0⟩ 0 [] (Or.inr (Or.inr rfl))).1
  refine ⟨?_, ?_, ?_, ?_⟩
  · rw [g1]; decide
  · rw [g2.1]; decide
  · have e : design_reads (bq27x00_update (i2c_env false 100 0) 0 s1_di
        ⟨⟨true, 2, regfile_of [(0x2E, 1500)]⟩, [], 0, 0, false, 0⟩).1 =
        (design_reads s1_di : World i2c_client → Nat) := by
      funext w
      exact design_reads_congr _ _ w (by decide) (by decide)
    rw [e] at g2
    rw [g2.2]; decide
  · rw [g3]; decide

/-- C16 as stated fails: on a Gen2 device whose transport fails the first read of DCAP with
-5 and answers 1000 afterwards, the first refresh succeeds (FLAGS = 0) and reads the design
capacity, leaving `charge_design_full` = -5; the second refresh reads the design capacity
again and changes `charge_design_full` to 1000000. -/
theorem C16_reread_counterexample :
    (bq27x00_refreshes flaky_dcap_env (s1_di, ⟨0, [], 0, 0, false, 0⟩) [10]).1.cache.flags
      = 0 ∧
    design_reads s1_di
      (bq27x00_refreshes flaky_dcap_env (s1_di, ⟨0, [], 0, 0, false, 0⟩) [10]).2 = 1 ∧
    (bq27x00_refreshes flaky_dcap_env (s1_di, ⟨0, [], 0, 0, false, 0⟩)
      [10]).1.charge_design_full = -5 ∧
    (bq27x00_refreshes flaky_dcap_env (s1_di, ⟨0, [], 0, 0, false, 0⟩) [10, 20]).1.cache.flags
      = 0 ∧
    design_reads s1_di
      (bq27x00_refreshes flaky_dcap_env (s1_di, ⟨0, [], 0, 0, false, 0⟩) [10, 20]).2 = 2 ∧
    (bq27x00_refreshes flaky_dcap_env (s1_di, ⟨0, [], 0, 0, false, 0⟩)
      [10, 20]).1.charge_design_full = 1000000 := by
  refine ⟨by decide, by decide, by decide, by decide, by decide, by decide⟩

end Bq27x00
